import Mathlib

/-!
# Verification of the Sieve pipeline orchestration and thread clustering engine

This file gives a shallow embedding, in Lean 4, of the core of the Sieve
news-processing system (files `score.py`, `pipeline.py`, `threads.py`,
`db.py`, `scheduler.py`, `app.py`) and proves or refutes the frozen claims
about it.

Conventions of the embedding:
* External collaborators (the Ollama inference service, the SQLite store,
  the filesystem) are abstracted as parameters: per-item outcomes are inputs,
  persistence is explicit state passing.
* Python dicts used as records become Lean structures; dicts used as maps
  become association lists; Python sets become duplicate-free lists with the
  corresponding list operations (Python iterates sets in unspecified order,
  so only membership is relied upon).
* Exceptions become `Except String`; a `try/except` block becomes a `match`.
* Instrumentation fields (lists of processed item ids, of progress-callback
  invocations, of stages entered) record the control flow of the source so
  that "item was processed" / "stage was executed" can be stated; they mirror
  the order of the corresponding Python side effects.
-/

namespace Sieve

namespace Score

/-- The seven dimension keys, `DIMENSION_KEYS` in `score.py`. -/
def DIMENSION_KEYS : List String :=
  ["d1_attention_economy",
   "d2_data_sovereignty",
   "d3_power_consolidation",
   "d4_coercion_cooperation",
   "d5_fear_trust",
   "d6_democratization",
   "d7_systemic_design"]

/-- A score dict: association list from dimension key to integer score. -/
abbrev Scores := List (String × Int)

/-- Association-list lookup (Python `dict.get(key)`). -/
def lookupScore : Scores → String → Option Int
  | [], _ => none
  | (k', v) :: rest, k => if k' = k then some v else lookupScore rest k

/-- Python `scores.get(key, 0)`. -/
def getScore (s : Scores) (k : String) : Int :=
  (lookupScore s k).getD 0

/-- `compute_composite` in `score.py`: sum of the seven dimension scores. -/
def compute_composite (scores : Scores) : Int :=
  (DIMENSION_KEYS.map (getScore scores)).sum

/-- `compute_tier` in `score.py`: map composite score to priority tier. -/
def compute_tier (composite : Int) : Nat :=
  if composite ≥ 15 then 1
  else if composite ≥ 10 then 2
  else if composite ≥ 5 then 3
  else if composite ≥ 1 then 4
  else 5

/-- `compute_convergence` in `score.py`: true if 5+ dimensions scored 2+. -/
def compute_convergence (scores : Scores) : Bool :=
  5 ≤ (DIMENSION_KEYS.countP (fun k => decide (2 ≤ getScore scores k)))

/-- A JSON value as found in the object decoded from the model response.
`jnull` is JSON `null` (Python `None`); `jstr` is a string, on which Python
`int(value)` succeeds exactly when the string is an integer numeral;
`jfloat t` stands for a float whose `int()` truncation is `t`; `jother`
stands for values (arrays, objects) on which `int(value)` raises. -/
inductive JVal where
  | jint (n : Int)
  | jfloat (trunc : Int)
  | jstr (s : String)
  | jnull
  | jother
deriving DecidableEq, Repr

/-- Python `int(value)` on a JSON value: `some` the integer it returns,
`none` when it raises `ValueError`/`TypeError`. -/
def pyInt : JVal → Option Int
  | .jint n => some n
  | .jfloat t => some t
  | .jstr s => s.toInt?
  | .jnull => none
  | .jother => none

/-- Association-list lookup on the decoded JSON object. -/
def lookupJVal : List (String × JVal) → String → Option JVal
  | [], _ => none
  | (k', v) :: rest, k => if k' = k then some v else lookupJVal rest k

/-- The validation loop of `parse_score_response` in `score.py` over the
given list of dimension keys: `data.get(key)` returning `None` (key missing,
or JSON `null`) rejects, a failing `int(value)` rejects, and the converted
integer is clamped by `max(0, min(3, value))`. -/
def parseScoresGo (data : List (String × JVal)) : List String → Option Scores
  | [] => some []
  | k :: rest =>
    match lookupJVal data k with
    | none => none
    | some v =>
      if v = .jnull then none
      else
        match pyInt v with
        | none => none
        | some n =>
          match parseScoresGo data rest with
          | none => none
          | some s => some ((k, max 0 (min 3 n)) :: s)

/-- `parse_score_response` in `score.py`, modeled from the point where the
JSON object embedded in the response text has been decoded (the regex search
and `json.loads` are external library calls): a response is accepted exactly
when every dimension key is present with an int-convertible, non-null value.
The rationale extraction is omitted: no claim observes it. -/
def parse_score_scores (data : List (String × JVal)) : Option Scores :=
  parseScoresGo data DIMENSION_KEYS

/-- A scores dict assigning the same value to all seven dimensions. -/
def constScores (v : Int) : Scores := DIMENSION_KEYS.map (fun k => (k, v))

/-- A decoded model response with out-of-range and string-typed values. -/
def wildResponse : List (String × JVal) :=
  [("d1_attention_economy", .jint 7),
   ("d2_data_sovereignty", .jint (-2)),
   ("d3_power_consolidation", .jint 2),
   ("rationale", .jstr "structural analysis"),
   ("d4_coercion_cooperation", .jint 3),
   ("d5_fear_trust", .jint 100),
   ("d6_democratization", .jfloat 1),
   ("d7_systemic_design", .jint 0)]

/-- The scores dict the parser extracts from `wildResponse`. -/
def wildScores : Scores :=
  [("d1_attention_economy", 3), ("d2_data_sovereignty", 0),
   ("d3_power_consolidation", 2), ("d4_coercion_cooperation", 3),
   ("d5_fear_trust", 3), ("d6_democratization", 1), ("d7_systemic_design", 0)]

/-- `ErrorType` in `score.py` (`errNone` is the source's `NONE`). -/
inductive ErrorType where
  | errNone
  | connection
  | model_not_found
  | server_error
  | timeout
  | api_error
  | empty_response
  | parse_error
  | unknown
deriving DecidableEq, Repr

/-- `FATAL_ERRORS` in `score.py`: errors that stop the batch immediately. -/
def FATAL_ERRORS : List ErrorType := [.connection, .model_not_found, .server_error]

/-- `MAX_CONSECUTIVE_FAILURES` in `score.py`. -/
def MAX_CONSECUTIVE_FAILURES : Nat := 3

/-- `ScoreResult` in `score.py`: the outcome of one `score_article` call. -/
structure ScoreResult where
  success : Bool
  scores : Option Scores := none
  composite_score : Option Int := none
  tier : Option Nat := none
  convergence_flag : Bool := false
  rationale : Option String := none
  error_type : ErrorType := .errNone
  error_message : Option String := none
deriving DecidableEq, Repr

/-- A work item of `score_batch`: the fields `score_batch` reads from the
articles returned by `get_unscored_articles`. -/
structure Article where
  id : Nat
  title : String := ""
  content : String := ""
  summary : String := ""
  keywords : String := ""
deriving DecidableEq, Repr

/-- Python string interpolation of an `Option String` (`None` prints "None"). -/
def errString (o : Option String) : String := o.elim "None" id

/-- The result dict of `score_batch`, plus instrumentation: `processed` is
the list of article ids `score_article` was invoked on, `persisted` the ids
written via `update_relevance_scores`, `progressCalls` the arguments of the
`on_progress` invocations, `cf` the running `consecutive_failures` counter
(a local variable of the source loop, carried here for compositional
reasoning). -/
structure BatchResult where
  scored : Nat
  failed : Nat
  errors : List String
  last_error : Option String
  stopped_early : Bool
  processed : List Nat
  persisted : List Nat
  progressCalls : List (Nat × Nat)
  cf : Nat
deriving DecidableEq, Repr

/-- The zero-value result `score_batch` starts from. -/
def initBatchResult : BatchResult :=
  { scored := 0, failed := 0, errors := [], last_error := none,
    stopped_early := false, processed := [], persisted := [],
    progressCalls := [], cf := 0 }

/-- The `if on_progress: try: on_progress(i+1, total) except: log` step at
the bottom of the `score_batch` loop: the invocation is recorded and its
outcome (normal return or raised exception) is discarded. -/
def progressStep (onp : Option (Nat → Nat → Except String Unit)) (i total : Nat)
    (acc : BatchResult) : BatchResult :=
  match onp with
  | none => acc
  | some f =>
    -- the callback's outcome is swallowed by the `except` clause
    let _ := f (i + 1) total
    { acc with progressCalls := acc.progressCalls ++ [(i + 1, total)] }

/-- The `for i, article in enumerate(articles)` loop of `score_batch` in
`score.py`; `sa` abstracts `score_article` (a blocking inference call),
`acc.cf` is `consecutive_failures`. A `break` is a return without recursing
(and, as in the source, without the progress call for that item). -/
def score_batch_go (sa : Article → ScoreResult)
    (onp : Option (Nat → Nat → Except String Unit)) (total : Nat) :
    List Article → Nat → BatchResult → BatchResult
  | [], _, acc => acc
  | a :: rest, i, acc =>
    let sr := sa a
    let acc1 := { acc with processed := acc.processed ++ [a.id] }
    if sr.success then
      let acc2 := { acc1 with
        scored := acc1.scored + 1,
        persisted := acc1.persisted ++ [a.id],
        cf := 0 }
      score_batch_go sa onp total rest (i + 1) (progressStep onp i total acc2)
    else
      let msg := errString sr.error_message
      let acc2 := { acc1 with
        failed := acc1.failed + 1,
        errors := acc1.errors ++ ["Article " ++ toString a.id ++ ": " ++ msg],
        last_error := some msg,
        cf := acc1.cf + 1 }
      if sr.error_type ∈ FATAL_ERRORS then
        { acc2 with
          stopped_early := true,
          last_error := some ("FATAL: " ++ msg ++ " - stopping batch") }
      else if MAX_CONSECUTIVE_FAILURES ≤ acc2.cf then
        { acc2 with
          stopped_early := true,
          last_error := some ("Stopped after 3 consecutive failures. Last: " ++ msg) }
      else
        score_batch_go sa onp total rest (i + 1) (progressStep onp i total acc2)

/-- `score_batch` in `score.py`: the fetched articles and the per-article
scoring outcome are parameters (both come from external collaborators). -/
def score_batch (articles : List Article) (sa : Article → ScoreResult)
    (onp : Option (Nat → Nat → Except String Unit)) : BatchResult :=
  if articles.length = 0 then initBatchResult
  else score_batch_go sa onp articles.length articles 0 initBatchResult

/-- No article in the list has a fatal-class outcome. -/
def NoFatal (sa : Article → ScoreResult) (xs : List Article) : Prop :=
  ∀ a ∈ xs, (sa a).error_type ∉ FATAL_ERRORS

/-- No three consecutive articles in the list all fail. -/
def NoThreeConsec (sa : Article → ScoreResult) (xs : List Article) : Prop :=
  ∀ a b c, [a, b, c] <:+: xs →
    ¬((sa a).success = false ∧ (sa b).success = false ∧ (sa c).success = false)

/-- Length of the maximal initial run of failing articles. -/
def leadFailRun (sa : Article → ScoreResult) : List Article → Nat
  | [] => 0
  | a :: rest => if (sa a).success then 0 else 1 + leadFailRun sa rest

/-- An always-failing retryable outcome. -/
def timeoutResult : ScoreResult :=
  { success := false, error_type := .timeout, error_message := some "timed out" }

/-- A successful outcome. -/
def okResult : ScoreResult := { success := true, scores := some (constScores 2) }

/-- A fatal (connection-class) outcome. -/
def connResult : ScoreResult :=
  { success := false, error_type := .connection,
    error_message := some "Cannot connect to Ollama" }

/-- Six articles with ids 1..6. -/
def sixArticles : List Article := (List.range 6).map (fun j => { id := j + 1 })

/-- Outcomes fail, fail, success, fail, fail, fail keyed by article id. -/
def ffsFffSa : Article → ScoreResult :=
  fun a => if a.id = 3 then okResult else timeoutResult

/-- Example dict: five dimensions at 2, two at 1. -/
def fiveHighScores : Scores :=
  [("d1_attention_economy", 2), ("d2_data_sovereignty", 2),
   ("d3_power_consolidation", 2), ("d4_coercion_cooperation", 2),
   ("d5_fear_trust", 2), ("d6_democratization", 1), ("d7_systemic_design", 1)]

/-- Example dict: four dimensions at 2, three at 1. -/
def fourHighScores : Scores :=
  [("d1_attention_economy", 2), ("d2_data_sovereignty", 2),
   ("d3_power_consolidation", 2), ("d4_coercion_cooperation", 2),
   ("d5_fear_trust", 1), ("d6_democratization", 1), ("d7_systemic_design", 1)]

end Score

end Sieve

namespace Sieve.Pipeline

/-- The eight pipeline stages, in order (`run_pipeline` in `pipeline.py`). -/
inductive Stage where
  | ingest
  | compress
  | summarize
  | embed
  | score
  | entities
  | topics
  | threads
deriving DecidableEq, Repr

/-- Result dict of `ingest_articles` in `ingest.py`. -/
structure IngestRes where
  inserted : Nat
  skipped : Nat
  errors : List String := []
deriving DecidableEq, Repr

/-- Result dict of `compress_jsonl` in `ingest.py`. -/
structure CompressRes where
  original_count : Nat
  unique_count : Nat
  removed_count : Nat
deriving DecidableEq, Repr

/-- Result dict of `detect_threads` in `threads.py`. -/
structure ThreadRes where
  threads_created : Nat
  threads_updated : Nat
  articles_linked : Nat
deriving DecidableEq, Repr

/-- The `result` dict of `run_pipeline` in `pipeline.py`. `B` is the result
type of the five batch stages (their payloads are opaque to the
orchestrator). A fatal-tier slot is `none` until that stage's function
returns; an advisory-tier slot records either the stage result (`.ok`) or
the caught exception's message (`.error`, the source's `{"error": str(e)}`).
`executed` is instrumentation: the stages whose `try` block was entered, in
order. -/
structure RunReport (B : Type) where
  success : Bool
  started_at : String
  finished_at : Option String
  ingest : Option IngestRes
  compress : Option CompressRes
  summarize : Option B
  embed : Option B
  score : Option B
  entities : Option (Except String B)
  topics : Option (Except String B)
  threads : Option (Except String ThreadRes)
  error : Option String
  executed : List Stage

set_option maxHeartbeats 1000000 in
/-- `run_pipeline` in `pipeline.py`. Abstractions: `jsonl_path` is the value
of `get_setting("jsonl_path")`; each stage function is an `Except` holding
its return value or the message of the exception it raises; `onProgress` is
the `on_progress` callback (an `Except` since a raising callback inside a
fatal-tier `try` aborts that stage — the batch stages 3..7 receive a wrapped
callback whose exceptions the batch functions swallow, so no callback effect
surfaces there); `t_start`/`t_end` are the `datetime.now().isoformat()`
strings read at entry and at the return points. -/
def run_pipeline {B : Type} (jsonl_path : Option String)
    (onProgress : Stage → Nat → Nat → String → Except String Unit)
    (ingest_articles : Except String IngestRes)
    (compress_jsonl : Except String CompressRes)
    (summarize_batch embed_batch score_batch : Except String B)
    (extract_batch classify_batch : Except String B)
    (detect_threads : Except String ThreadRes)
    (t_start t_end : String) : RunReport B :=
  let r0 : RunReport B :=
    { success := true, started_at := t_start, finished_at := none,
      ingest := none, compress := none, summarize := none, embed := none,
      score := none, entities := none, topics := none, threads := none,
      error := none, executed := [] }
  match jsonl_path with
  | none =>
    -- precondition failure: note `finished_at` is left unset by the source
    { r0 with success := false, error := some "No JSONL path configured" }
  | some _ =>
    -- Stage 1: Ingest
    let r1 := { r0 with executed := r0.executed ++ [Stage.ingest] }
    let fail1 := fun (e : String) =>
      { r1 with
        success := false,
        error := some ("Ingest failed: " ++ e),
        finished_at := some t_end }
    match onProgress .ingest 0 1 "Ingesting articles from JSONL" with
    | .error e => fail1 e
    | .ok _ =>
    match ingest_articles with
    | .error e => fail1 e
    | .ok ir =>
    let r1b := { r1 with ingest := some ir }
    match onProgress .ingest 1 1
        ("Ingested " ++ toString ir.inserted ++ " new articles") with
    | .error e =>
      { r1b with
        success := false,
        error := some ("Ingest failed: " ++ e),
        finished_at := some t_end }
    | .ok _ =>
    -- Stage 2: Compress
    let r2 := { r1b with executed := r1b.executed ++ [Stage.compress] }
    let fail2 := fun (e : String) =>
      { r2 with
        success := false,
        error := some ("Compression failed: " ++ e),
        finished_at := some t_end }
    match onProgress .compress 0 1 "Removing duplicates from JSONL" with
    | .error e => fail2 e
    | .ok _ =>
    match compress_jsonl with
    | .error e => fail2 e
    | .ok cr =>
    let r2b := { r2 with compress := some cr }
    match onProgress .compress 1 1
        ("Removed " ++ toString cr.removed_count ++ " duplicates") with
    | .error e =>
      { r2b with
        success := false,
        error := some ("Compression failed: " ++ e),
        finished_at := some t_end }
    | .ok _ =>
    -- Stage 3: Summarize (progress closure passed into the batch, which
    -- swallows its exceptions)
    let r3 := { r2b with executed := r2b.executed ++ [Stage.summarize] }
    match summarize_batch with
    | .error e =>
      { r3 with
        success := false,
        error := some ("Summarization failed: " ++ e),
        finished_at := some t_end }
    | .ok sb =>
    let r3b := { r3 with summarize := some sb }
    -- Stage 4: Embed
    let r4 := { r3b with executed := r3b.executed ++ [Stage.embed] }
    match embed_batch with
    | .error e =>
      { r4 with
        success := false,
        error := some ("Embedding failed: " ++ e),
        finished_at := some t_end }
    | .ok eb =>
    let r4b := { r4 with embed := some eb }
    -- Stage 5: Score
    let r5 := { r4b with executed := r4b.executed ++ [Stage.score] }
    match score_batch with
    | .error e =>
      { r5 with
        success := false,
        error := some ("Scoring failed: " ++ e),
        finished_at := some t_end }
    | .ok scb =>
    let r5b := { r5 with score := some scb }
    -- Stage 6: Extract entities (advisory)
    let r6 := { r5b with executed := r5b.executed ++ [Stage.entities] }
    let r6b := match extract_batch with
      | .error e => { r6 with entities := some (.error e) }
      | .ok v => { r6 with entities := some (.ok v) }
    -- Stage 7: Classify topics (advisory)
    let r7 := { r6b with executed := r6b.executed ++ [Stage.topics] }
    let r7b := match classify_batch with
      | .error e => { r7 with topics := some (.error e) }
      | .ok v => { r7 with topics := some (.ok v) }
    -- Stage 8: Detect threads (advisory)
    let r8 := { r7b with executed := r7b.executed ++ [Stage.threads] }
    let r8b := match onProgress .threads 0 1 "Detecting story threads" with
      | .error e => { r8 with threads := some (.error e) }
      | .ok _ =>
        match detect_threads with
        | .error e => { r8 with threads := some (.error e) }
        | .ok tr =>
          let r8c := { r8 with threads := some (.ok tr) }
          match onProgress .threads 1 1
              ("Threads: " ++ toString tr.threads_created ++ " new, " ++
                toString tr.threads_updated ++ " updated") with
          | .error e => { r8c with threads := some (.error e) }
          | .ok _ => r8c
    { r8b with finished_at := some t_end }

/-- A progress callback that never raises. -/
def okProgress : Stage → Nat → Nat → String → Except String Unit :=
  fun _ _ _ _ => Except.ok ()

end Sieve.Pipeline

namespace Sieve.Threads

/-- `CLUSTER_THRESHOLD` in `threads.py`: minimum articles to form a thread. -/
def CLUSTER_THRESHOLD : Nat := 5

/-- `ENTITY_OVERLAP_MIN` in `threads.py`: minimum shared entities to link. -/
def ENTITY_OVERLAP_MIN : Nat := 2

/-- `EMBEDDING_TOP_K` in `threads.py`: KNN neighbours requested per article
(the KNN search itself is the external `search_by_embedding_with_date`). -/
def EMBEDDING_TOP_K : Nat := 5

/-- Python-set insertion on a duplicate-free list. -/
def insertNew {α : Type} [DecidableEq α] (l : List α) (x : α) : List α :=
  if x ∈ l then l else l ++ [x]

/-- Python-set union on duplicate-free lists. -/
def unionL {α : Type} [DecidableEq α] (l l' : List α) : List α :=
  l'.foldl insertNew l

/-- Python-set intersection. -/
def interL {α : Type} [DecidableEq α] (l l' : List α) : List α :=
  l.filter (· ∈ l')

/-- An article of the thread-detection working set
(`get_articles_with_entities_in_range`): its id, its `entities` JSON decoded
to a category → names dict (`none` covers a missing or unparseable value —
both make the source skip the article in every loop), and whether its
`embedding` blob is present. -/
structure Article where
  id : Nat
  entities : Option (List (String × List String))
  hasEmbedding : Bool
deriving DecidableEq, Repr

/-- Drop leading whitespace characters. -/
def dropWs : List Char → List Char
  | [] => []
  | c :: r => if c.isWhitespace then dropWs r else c :: r

/-- Strip whitespace from both ends (Python `str.strip()`). -/
def trimChars (l : List Char) : List Char :=
  ((dropWs ((dropWs l).reverse)).reverse)

/-- `entity_name.strip().lower()` with the emptiness check of the source
(lower-casing per character; Python's full-Unicode lowering agrees on the
names at issue). -/
def pyName (s : String) : Option String :=
  let t := trimChars s.data
  if t = [] then none else some (String.mk (t.map Char.toLower))

/-- The set of normalized entity names of one article (the flattening over
categories used by `_build_entity_index` and `_find_entity_neighbors`). -/
def entityNames (a : Article) : List String :=
  match a.entities with
  | none => []
  | some d =>
    d.foldl (fun acc cat =>
      cat.2.foldl (fun acc2 n =>
        match pyName n with
        | none => acc2
        | some nm => insertNew acc2 nm) acc) []

/-- `_build_entity_index` in `threads.py`, as the bucket function: the set of
working-set article ids that mention the (normalized) entity name. -/
def entityIndex (articles : List Article) (name : String) : List Nat :=
  (articles.filter (fun a => name ∈ entityNames a)).map (·.id)

/-- `_find_entity_neighbors` in `threads.py`: other articles sharing at
least `ENTITY_OVERLAP_MIN` entities, counting, for every entity of the
article, the other ids in that entity's index bucket. The candidate domain
is the working set: the index only holds working-set ids. -/
def entityNeighbors (articles : List Article) (a : Article) : List Nat :=
  (articles.map (·.id)).filter (fun other =>
    other ≠ a.id ∧
    ENTITY_OVERLAP_MIN ≤
      ((entityNames a).filter (fun nm => other ∈ entityIndex articles nm)).length)

/-- `_find_embedding_neighbors` in `threads.py`: the id set returned by the
external KNN search (`knn`), empty if the article has no embedding blob (a
raising search is also caught to the empty set — fold that into `knn`). -/
def embeddingNeighbors (knn : Nat → List Nat) (a : Article) : List Nat :=
  if a.hasEmbedding then (knn a.id).foldl insertNew [] else []

/-- One article's neighbour set in `detect_threads` step 3: embedding
neighbours and entity neighbours, each restricted to the working set,
unioned. -/
def relatedIds (articles : List Article) (knn : Nat → List Nat) (a : Article) :
    List Nat :=
  let ids := articles.map (·.id)
  unionL ((embeddingNeighbors knn a).filter (· ∈ ids))
    ((entityNeighbors articles a).filter (· ∈ ids))

/-- The symmetric adjacency of the relationship graph built in
`detect_threads` step 3 (`graph[aid].add(neighbor)`;
`graph[neighbor].add(aid)`). -/
def adjacency (articles : List Article) (knn : Nat → List Nat) (x : Nat) :
    List Nat :=
  articles.foldl (fun acc a =>
    let ns := relatedIds articles knn a
    let acc1 := if a.id = x then unionL acc ns else acc
    if x ∈ ns then insertNew acc1 a.id else acc1) []

/-- The keys of the graph dict: nodes that received at least one edge entry.
(Python's insertion order over set iteration is unspecified; only membership
and the relative order of first appearance per article loop matter, and no
claim depends on the order across articles.) -/
def graphNodes (articles : List Article) (knn : Nat → List Nat) : List Nat :=
  articles.foldl (fun acc a =>
    let ns := relatedIds articles knn a
    if ns = [] then acc else unionL (insertNew acc a.id) ns) []

/-- One breadth-first expansion step: add all neighbours of the frontier. -/
def expand (adj : Nat → List Nat) (s : List Nat) : List Nat :=
  s.foldl (fun acc x => unionL acc (adj x)) s

/-- Iterated expansion; with fuel ≥ the node count this computes exactly the
set the source's BFS (`_find_connected_components`) collects from a start
node. -/
def reachN (adj : Nat → List Nat) : Nat → List Nat → List Nat
  | 0, s => s
  | n + 1, s => reachN adj n (expand adj s)

/-- The BFS component of a start node. -/
def component (adj : Nat → List Nat) (fuel : Nat) (x : Nat) : List Nat :=
  reachN adj fuel [x]

/-- The outer loop of `_find_connected_components`: walk the node list,
skipping visited nodes, collecting one component per unvisited node. -/
def componentsGo (adj : Nat → List Nat) (fuel : Nat) :
    List Nat → List Nat → List (List Nat)
  | [], _ => []
  | n :: rest, visited =>
    if n ∈ visited then componentsGo adj fuel rest visited
    else
      let c := component adj fuel n
      c :: componentsGo adj fuel rest (unionL visited c)

/-- `_find_connected_components` applied to the graph of step 3. -/
def connectedComponents (articles : List Article) (knn : Nat → List Nat) :
    List (List Nat) :=
  let nodes := graphNodes articles knn
  componentsGo (adjacency articles knn) nodes.length nodes []

/-- The thread store: the `article_threads` associations
(`get_all_thread_article_ids`, thread id → member article ids) and the next
`threads` rowid (sqlite rowids start at 1, so a stored id is never 0 — the
source's `if best_thread_id:` truthiness test is `Option` here). Thread
`name`/`primary_entities`/timestamps are not modeled: no claim observes
them. -/
structure ThreadStore where
  memberships : List (Nat × List Nat)
  next_id : Nat
deriving DecidableEq, Repr

/-- `create_thread` in `db.py`: inserts a `threads` row, returns its id. -/
def create_thread (st : ThreadStore) : Nat × ThreadStore :=
  (st.next_id, { st with next_id := st.next_id + 1 })

/-- `add_articles_to_thread` in `db.py`: `INSERT OR IGNORE` of each
(article, thread) pair — an idempotent union on the thread's member set. -/
def add_articles_to_thread (st : ThreadStore) (tid : Nat) (ids : List Nat) :
    ThreadStore :=
  if (st.memberships.lookup tid).isSome then
    { st with
      memberships := st.memberships.map
        (fun p => if p.1 = tid then (p.1, unionL p.2 ids) else p) }
  else
    { st with memberships := st.memberships ++ [(tid, ids.foldl insertNew [])] }

/-- The selection loop of `detect_threads` step 7 (lines 304–314): walk the
existing memberships keeping the thread with the highest overlap among those
with `overlap_ratio > THREAD_OVERLAP_RATIO` (0.5). The float comparison
`overlap / len(cluster) > 0.5` is exact at these magnitudes and is rendered
as `2 * overlap > len(cluster)`. -/
def selectGo (cluster : List Nat) :
    List (Nat × List Nat) → Option Nat → Nat → Option Nat × Nat
  | [], best, bo => (best, bo)
  | p :: rest, best, bo =>
    let overlap := (interL cluster p.2).length
    if 2 * overlap > cluster.length ∧ overlap > bo then
      selectGo cluster rest (some p.1) overlap
    else
      selectGo cluster rest best bo

/-- `best_thread_id`/`best_overlap` after the step-7 selection loop. -/
def selectBestThread (cluster : List Nat) (ms : List (Nat × List Nat)) :
    Option Nat × Nat :=
  selectGo cluster ms none 0

/-- The per-cluster body of `detect_threads` step 7 (lines 303–336): extend
the selected thread, or create a new one; `snapshot` is the membership map
read once before the loop (`get_all_thread_article_ids`), `st` the store
being written. The `update_thread` call writes only unmodeled fields. -/
def processCluster (snapshot : List (Nat × List Nat)) (cluster : List Nat)
    (st : ThreadStore) (res : Sieve.Pipeline.ThreadRes) :
    ThreadStore × Sieve.Pipeline.ThreadRes :=
  match (selectBestThread cluster snapshot).1 with
  | some tid =>
    (add_articles_to_thread st tid cluster,
     { res with
       threads_updated := res.threads_updated + 1,
       articles_linked := res.articles_linked + cluster.length })
  | none =>
    let (tid, st1) := create_thread st
    (add_articles_to_thread st1 tid cluster,
     { res with
       threads_created := res.threads_created + 1,
       articles_linked := res.articles_linked + cluster.length })

/-- `detect_threads` in `threads.py`: the working set (`articles`) and the
KNN search results (`knn`) are parameters; the thread store is passed and
returned explicitly. -/
def detect_threads (articles : List Article) (knn : Nat → List Nat)
    (st : ThreadStore) : Sieve.Pipeline.ThreadRes × ThreadStore :=
  let res0 : Sieve.Pipeline.ThreadRes :=
    { threads_created := 0, threads_updated := 0, articles_linked := 0 }
  if articles.length < CLUSTER_THRESHOLD then (res0, st)
  else
    let comps := connectedComponents articles knn
    let qualifying := comps.filter (fun c => c.length ≥ CLUSTER_THRESHOLD)
    if qualifying = [] then (res0, st)
    else
      let snapshot := st.memberships
      let out := qualifying.foldl
        (fun (acc : ThreadStore × Sieve.Pipeline.ThreadRes) c =>
          processCluster snapshot c acc.1 acc.2) (st, res0)
      (out.2, out.1)

/-- Three entities shared by every article of the synthetic cluster. -/
def commonEntities : List (String × List String) :=
  [("companies", ["Alpha", "Beta", "Gamma"])]

/-- A synthetic working-set article of the six-article scenario. -/
def clusterArticle (i : Nat) : Article :=
  { id := i, entities := some commonEntities, hasEmbedding := true }

/-- Six articles, ids 1–6, all sharing the three common entities. -/
def sixThreadArticles : List Article :=
  (List.range 6).map (fun j => clusterArticle (j + 1))

/-- Mutual nearest neighbours: the KNN search returns the other five ids. -/
def mutualKnn : Nat → List Nat :=
  fun i => ((List.range 6).map (· + 1)).filter (· ≠ i)

/-- An empty thread store (sqlite rowids start at 1). -/
def emptyStore : ThreadStore := { memberships := [], next_id := 1 }

/-- A store holding one thread (id 1) with members {1,2,3,4,5}. -/
def exStore : ThreadStore :=
  { memberships := [(1, [1, 2, 3, 4, 5])], next_id := 2 }

end Sieve.Threads

namespace Sieve.Guard

/-- The shared flags of the two run guards: `_pipeline_running` in
`scheduler.py` (read and written under `_pipeline_lock`) and
`job_state["running"]` in `app.py` (under `job_lock`). Each mutex-protected
block is one atomic step of this model; an interleaving is a sequence of
such steps. -/
structure SchedState where
  pipeline_running : Bool
  job_running : Bool
deriving DecidableEq, Repr

/-- The atomic check-and-set at the top of `_run_scheduled_pipeline`
(`scheduler.py` lines 38–42): under `_pipeline_lock`, return-skip if the
flag is set, else set it. Returns (proceeded?, new state). -/
def tryStartScheduled (s : SchedState) : Bool × SchedState :=
  if s.pipeline_running then (false, s)
  else (true, { s with pipeline_running := true })

/-- The `finally` block of `_run_scheduled_pipeline` (lines 59–61): clear
the flag unconditionally. -/
def finishScheduled (s : SchedState) : SchedState :=
  { s with pipeline_running := false }

/-- `is_pipeline_running` in `scheduler.py`. -/
def is_pipeline_running (s : SchedState) : Bool := s.pipeline_running

/-- `_run_scheduled_pipeline` as a whole, for a job whose body either
returns or raises (`job`): skip if the guard is held, otherwise run the
body inside `try/except/finally` — the `except` swallows the exception and
the `finally` clears the flag on both paths. -/
def run_scheduled_pipeline (s : SchedState) (job : Except String Unit) :
    Bool × SchedState :=
  match tryStartScheduled s with
  | (false, s1) => (false, s1)
  | (true, s1) =>
    match job with
    | .ok _ => (true, finishScheduled s1)
    | .error _ => (true, finishScheduled s1)

/-- The guard consultation of the manual `/pipeline` route
(`trigger_pipeline` in `app.py`, lines 681–687): reject when
`job_state["running"]` is set or when `is_pipeline_running()`. It does not
set the scheduler's flag. -/
def trigger_pipeline_check (s : SchedState) : Bool :=
  !s.job_running && !(is_pipeline_running s)

/-- `run_pipeline_job` (the thread started by the manual route) setting
`job_state["running"] = True` — it never touches `_pipeline_running`. -/
def run_pipeline_job_start (s : SchedState) : SchedState :=
  { s with job_running := true }

end Sieve.Guard

/-- C7: the scoring derivations are pure functions of the seven dimension
scores: the composite is their sum with `composite([3,...,3]) = 21`; the tier
maps the composite by fixed thresholds with `tier(21)=1`, `tier(9)=3`,
`tier(0)=5`; convergence holds iff at least 5 of the 7 dimension scores
are ≥ 2, true on `[2,2,2,2,2,1,1]` and false on `[2,2,2,2,1,1,1]`. -/
theorem scoring_derivations_pure :
    Sieve.Score.compute_composite (Sieve.Score.constScores 3) = 21 ∧
    Sieve.Score.compute_tier 21 = 1 ∧
    Sieve.Score.compute_tier 9 = 3 ∧
    Sieve.Score.compute_tier 0 = 5 ∧
    (∀ scores : Sieve.Score.Scores,
      Sieve.Score.compute_convergence scores = true ↔
        5 ≤ (Sieve.Score.DIMENSION_KEYS.countP
              (fun k => decide (2 ≤ Sieve.Score.getScore scores k)))) ∧
    Sieve.Score.compute_convergence Sieve.Score.fiveHighScores = true ∧
    Sieve.Score.compute_convergence Sieve.Score.fourHighScores = false := by
  refine ⟨by decide, by decide, by decide, by decide, ?_, by decide, by decide⟩
  intro scores
  simp [Sieve.Score.compute_convergence]

/-- Witness for C7: the theorem instantiated at the concrete all-threes dict. -/
theorem scoring_derivations_pure_witness :
    Sieve.Score.compute_convergence (Sieve.Score.constScores 3) = true := by
  have h := scoring_derivations_pure
  exact (h.2.2.2.2.1 (Sieve.Score.constScores 3)).mpr (by decide)

theorem score_parse_entry_bounds (data : List (String × Sieve.Score.JVal)) :
    ∀ ks s, Sieve.Score.parseScoresGo data ks = some s →
      ∀ p ∈ s, 0 ≤ p.2 ∧ p.2 ≤ 3 := by
  intro ks
  induction ks with
  | nil =>
    intro s hs p hp
    simp only [Sieve.Score.parseScoresGo, Option.some.injEq] at hs
    subst hs
    simp at hp
  | cons k rest ih =>
    intro s hs p hp
    cases hlk : Sieve.Score.lookupJVal data k with
    | none => simp [Sieve.Score.parseScoresGo, hlk] at hs
    | some v =>
      by_cases hv : v = .jnull
      · simp [Sieve.Score.parseScoresGo, hlk, hv] at hs
      · cases hpi : Sieve.Score.pyInt v with
        | none => simp [Sieve.Score.parseScoresGo, hlk, hv, hpi] at hs
        | some n =>
          cases hrec : Sieve.Score.parseScoresGo data rest with
          | none => simp [Sieve.Score.parseScoresGo, hlk, hv, hpi, hrec] at hs
          | some s' =>
            simp only [Sieve.Score.parseScoresGo, hlk, hpi, hrec, if_neg hv,
              Option.some.injEq] at hs
            subst hs
            rcases List.mem_cons.mp hp with hhead | htail
            · subst hhead
              constructor
              · exact le_max_left 0 _
              · exact max_le (by norm_num) (min_le_left _ _)
            · exact ih s' hrec p htail

theorem score_getScore_bounds :
    ∀ s : Sieve.Score.Scores, (∀ p ∈ s, 0 ≤ p.2 ∧ p.2 ≤ 3) →
      ∀ k, 0 ≤ Sieve.Score.getScore s k ∧ Sieve.Score.getScore s k ≤ 3 := by
  intro s
  induction s with
  | nil =>
    intro _ k
    simp [Sieve.Score.getScore, Sieve.Score.lookupScore]
  | cons hd tl ih =>
    intro h k
    by_cases hk : hd.1 = k
    · have : Sieve.Score.getScore (hd :: tl) k = hd.2 := by
        simp [Sieve.Score.getScore, Sieve.Score.lookupScore, hk]
      rw [this]
      exact h hd (List.mem_cons_self _ _)
    · have : Sieve.Score.getScore (hd :: tl) k = Sieve.Score.getScore tl k := by
        simp [Sieve.Score.getScore, Sieve.Score.lookupScore, hk]
      rw [this]
      exact ih (fun p hp => h p (List.mem_cons_of_mem _ hp)) k

theorem score_composite_bounds :
    ∀ s : Sieve.Score.Scores,
      (∀ k, 0 ≤ Sieve.Score.getScore s k ∧ Sieve.Score.getScore s k ≤ 3) →
      0 ≤ Sieve.Score.compute_composite s ∧ Sieve.Score.compute_composite s ≤ 21 := by
  intro s h
  have h1 := h "d1_attention_economy"
  have h2 := h "d2_data_sovereignty"
  have h3 := h "d3_power_consolidation"
  have h4 := h "d4_coercion_cooperation"
  have h5 := h "d5_fear_trust"
  have h6 := h "d6_democratization"
  have h7 := h "d7_systemic_design"
  simp only [Sieve.Score.compute_composite, Sieve.Score.DIMENSION_KEYS,
    List.map_cons, List.map_nil, List.sum_cons, List.sum_nil]
  omega

theorem score_tier_range :
    ∀ c : Int, 1 ≤ Sieve.Score.compute_tier c ∧ Sieve.Score.compute_tier c ≤ 5 := by
  intro c
  unfold Sieve.Score.compute_tier
  split_ifs <;> omega

/-- C10: every response the score parser accepts has each of its seven
dimension scores clamped into 0–3, so the composite computed from an
accepted response lies in 0–21 and the tier in 1–5; an empty object is
rejected, and a concrete response with out-of-range integers is clamped
to the nearest bound. -/
theorem score_parser_clamps :
    (∀ data s, Sieve.Score.parse_score_scores data = some s →
       (∀ p ∈ s, 0 ≤ p.2 ∧ p.2 ≤ 3) ∧
       0 ≤ Sieve.Score.compute_composite s ∧
       Sieve.Score.compute_composite s ≤ 21 ∧
       1 ≤ Sieve.Score.compute_tier (Sieve.Score.compute_composite s) ∧
       Sieve.Score.compute_tier (Sieve.Score.compute_composite s) ≤ 5) ∧
    Sieve.Score.parse_score_scores [] = none ∧
    Sieve.Score.parse_score_scores Sieve.Score.wildResponse =
      some Sieve.Score.wildScores := by
  refine ⟨?_, by decide, by decide⟩
  intro data s hs
  have hb := score_parse_entry_bounds data Sieve.Score.DIMENSION_KEYS s hs
  have hg := score_getScore_bounds s hb
  have hc := score_composite_bounds s hg
  have ht := score_tier_range (Sieve.Score.compute_composite s)
  exact ⟨hb, hc.1, hc.2, ht.1, ht.2⟩

theorem progressStep_stopped (onp : Option (Nat → Nat → Except String Unit))
    (i total : Nat) (acc : Sieve.Score.BatchResult) :
    (Sieve.Score.progressStep onp i total acc).stopped_early = acc.stopped_early := by
  cases onp <;> simp [Sieve.Score.progressStep]

theorem progressStep_processed (onp : Option (Nat → Nat → Except String Unit))
    (i total : Nat) (acc : Sieve.Score.BatchResult) :
    (Sieve.Score.progressStep onp i total acc).processed = acc.processed := by
  cases onp <;> simp [Sieve.Score.progressStep]

theorem progressStep_cf (onp : Option (Nat → Nat → Except String Unit))
    (i total : Nat) (acc : Sieve.Score.BatchResult) :
    (Sieve.Score.progressStep onp i total acc).cf = acc.cf := by
  cases onp <;> simp [Sieve.Score.progressStep]

theorem batch_go_append (sa : Sieve.Score.Article → Sieve.Score.ScoreResult)
    (onp : Option (Nat → Nat → Except String Unit)) (total : Nat) :
    ∀ (xs ys : List Sieve.Score.Article) (i : Nat) (acc : Sieve.Score.BatchResult),
      acc.stopped_early = false →
      (Sieve.Score.score_batch_go sa onp total xs i acc).stopped_early = false →
      Sieve.Score.score_batch_go sa onp total (xs ++ ys) i acc =
        Sieve.Score.score_batch_go sa onp total ys (i + xs.length)
          (Sieve.Score.score_batch_go sa onp total xs i acc) := by
  intro xs
  induction xs with
  | nil =>
    intro ys i acc _ _
    simp [Sieve.Score.score_batch_go]
  | cons a xs ih =>
    intro ys i acc hacc hstop
    cases hsucc : (sa a).success with
    | true =>
      simp only [List.cons_append, Sieve.Score.score_batch_go, hsucc, if_true,
        List.append_eq] at hstop ⊢
      rw [ih ys (i + 1) _ (by rw [progressStep_stopped]; exact hacc) hstop]
      rw [List.length_cons, Nat.add_assoc, Nat.add_comm 1 xs.length]
    | false =>
      by_cases hfat : (sa a).error_type ∈ Sieve.Score.FATAL_ERRORS
      · simp only [List.cons_append, Sieve.Score.score_batch_go, hsucc, hfat] at hstop
        simp at hstop
      · by_cases h3 : Sieve.Score.MAX_CONSECUTIVE_FAILURES ≤ acc.cf + 1
        · simp only [List.cons_append, Sieve.Score.score_batch_go, hsucc, hfat, h3] at hstop
          simp at hstop
        · simp only [List.cons_append, Sieve.Score.score_batch_go, hsucc, hfat, h3,
            List.append_eq] at hstop ⊢
          simp only [Bool.false_eq_true, if_false, if_neg hfat, if_neg h3] at hstop ⊢
          rw [ih ys (i + 1) _ (by rw [progressStep_stopped]; exact hacc) hstop]
          rw [List.length_cons, Nat.add_assoc, Nat.add_comm 1 xs.length]

theorem batch_go_processed (sa : Sieve.Score.Article → Sieve.Score.ScoreResult)
    (onp : Option (Nat → Nat → Except String Unit)) (total : Nat) :
    ∀ (xs : List Sieve.Score.Article) (i : Nat) (acc : Sieve.Score.BatchResult),
      acc.stopped_early = false →
      (Sieve.Score.score_batch_go sa onp total xs i acc).stopped_early = false →
      (Sieve.Score.score_batch_go sa onp total xs i acc).processed =
        acc.processed ++ xs.map (·.id) := by
  intro xs
  induction xs with
  | nil =>
    intro i acc _ _
    simp [Sieve.Score.score_batch_go]
  | cons a xs ih =>
    intro i acc hacc hstop
    cases hsucc : (sa a).success with
    | true =>
      simp only [Sieve.Score.score_batch_go, hsucc, if_true] at hstop ⊢
      rw [ih (i + 1) _ (by rw [progressStep_stopped]; exact hacc) hstop]
      simp [progressStep_processed]
    | false =>
      by_cases hfat : (sa a).error_type ∈ Sieve.Score.FATAL_ERRORS
      · simp only [Sieve.Score.score_batch_go, hsucc, hfat] at hstop
        simp at hstop
      · by_cases h3 : Sieve.Score.MAX_CONSECUTIVE_FAILURES ≤ acc.cf + 1
        · simp only [Sieve.Score.score_batch_go, hsucc, hfat, h3] at hstop
          simp at hstop
        · simp only [Sieve.Score.score_batch_go, hsucc, hfat, h3] at hstop ⊢
          simp only [Bool.false_eq_true, if_false, if_neg hfat, if_neg h3] at hstop ⊢
          rw [ih (i + 1) _ (by rw [progressStep_stopped]; exact hacc) hstop]
          simp [progressStep_processed]

theorem noThreeConsec_tail (sa : Sieve.Score.Article → Sieve.Score.ScoreResult)
    (a : Sieve.Score.Article) (xs : List Sieve.Score.Article) :
    Sieve.Score.NoThreeConsec sa (a :: xs) → Sieve.Score.NoThreeConsec sa xs := by
  intro h x y z hinf
  exact h x y z (hinf.trans (List.suffix_cons a xs).isInfix)

theorem lead_le_two (sa : Sieve.Score.Article → Sieve.Score.ScoreResult)
    (xs : List Sieve.Score.Article) (h : Sieve.Score.NoThreeConsec sa xs) :
    Sieve.Score.leadFailRun sa xs ≤ 2 := by
  cases xs with
  | nil => simp [Sieve.Score.leadFailRun]
  | cons a xs1 =>
    cases xs1 with
    | nil =>
      by_cases ha : (sa a).success <;> simp [Sieve.Score.leadFailRun, ha]
    | cons b xs2 =>
      cases xs2 with
      | nil =>
        by_cases ha : (sa a).success <;> by_cases hb : (sa b).success <;>
          simp [Sieve.Score.leadFailRun, ha, hb]
      | cons c rest =>
        by_cases ha : (sa a).success
        · simp [Sieve.Score.leadFailRun, ha]
        · by_cases hb : (sa b).success
          · simp [Sieve.Score.leadFailRun, ha, hb]
          · by_cases hc : (sa c).success
            · simp [Sieve.Score.leadFailRun, ha, hb, hc]
            · exfalso
              refine h a b c ⟨[], rest, by simp⟩ ?_
              simp only [Bool.not_eq_true] at ha hb hc
              exact ⟨ha, hb, hc⟩

theorem go_fatal_head (sa : Sieve.Score.Article → Sieve.Score.ScoreResult)
    (onp : Option (Nat → Nat → Except String Unit)) (total : Nat)
    (a : Sieve.Score.Article) (post : List Sieve.Score.Article) (i : Nat)
    (acc : Sieve.Score.BatchResult)
    (hsa : (sa a).success = false)
    (hfat : (sa a).error_type ∈ Sieve.Score.FATAL_ERRORS) :
    (Sieve.Score.score_batch_go sa onp total (a :: post) i acc).stopped_early = true ∧
    (Sieve.Score.score_batch_go sa onp total (a :: post) i acc).processed =
      acc.processed ++ [a.id] ∧
    (Sieve.Score.score_batch_go sa onp total (a :: post) i acc).last_error =
      some ("FATAL: " ++ Sieve.Score.errString (sa a).error_message ++
        " - stopping batch") := by
  simp [Sieve.Score.score_batch_go, hsa, hfat]

theorem go_three_fails (sa : Sieve.Score.Article → Sieve.Score.ScoreResult)
    (onp : Option (Nat → Nat → Except String Unit)) (total : Nat)
    (a b c : Sieve.Score.Article) (post : List Sieve.Score.Article) (i : Nat)
    (acc : Sieve.Score.BatchResult)
    (hcf : acc.cf = 0)
    (hsa : (sa a).success = false) (hsb : (sa b).success = false)
    (hsc : (sa c).success = false)
    (hna : (sa a).error_type ∉ Sieve.Score.FATAL_ERRORS)
    (hnb : (sa b).error_type ∉ Sieve.Score.FATAL_ERRORS)
    (hnc : (sa c).error_type ∉ Sieve.Score.FATAL_ERRORS) :
    (Sieve.Score.score_batch_go sa onp total (a :: b :: c :: post) i acc).stopped_early
        = true ∧
    (Sieve.Score.score_batch_go sa onp total (a :: b :: c :: post) i acc).processed =
      acc.processed ++ [a.id, b.id, c.id] ∧
    (Sieve.Score.score_batch_go sa onp total (a :: b :: c :: post) i acc).last_error =
      some ("Stopped after 3 consecutive failures. Last: " ++
        Sieve.Score.errString (sa c).error_message) := by
  simp [Sieve.Score.score_batch_go, hsa, hsb, hsc, hna, hnb, hnc, hcf,
    Sieve.Score.MAX_CONSECUTIVE_FAILURES, progressStep_cf, progressStep_stopped,
    progressStep_processed, Sieve.Score.progressStep]
  cases onp <;> simp [Sieve.Score.progressStep]

theorem batch_go_clean (sa : Sieve.Score.Article → Sieve.Score.ScoreResult)
    (onp : Option (Nat → Nat → Except String Unit)) (total : Nat) :
    ∀ (xs : List Sieve.Score.Article) (i : Nat) (acc : Sieve.Score.BatchResult),
      acc.stopped_early = false →
      Sieve.Score.NoFatal sa xs →
      Sieve.Score.NoThreeConsec sa xs →
      acc.cf + Sieve.Score.leadFailRun sa xs ≤ 2 →
      ((Sieve.Score.score_batch_go sa onp total xs i acc).stopped_early = false ∧
       (Sieve.Score.score_batch_go sa onp total xs i acc).processed =
         acc.processed ++ xs.map (·.id)) := by
  intro xs
  induction xs with
  | nil =>
    intro i acc hacc _ _ _
    exact ⟨by simpa [Sieve.Score.score_batch_go] using hacc,
      by simp [Sieve.Score.score_batch_go]⟩
  | cons a xs ih =>
    intro i acc hacc hfat h3 hcf
    have h3t := noThreeConsec_tail sa a xs h3
    have hft : Sieve.Score.NoFatal sa xs :=
      fun x hx => hfat x (List.mem_cons_of_mem _ hx)
    cases hsucc : (sa a).success with
    | true =>
      simp only [Sieve.Score.score_batch_go, hsucc, if_true]
      obtain ⟨r1, r2⟩ := ih (i + 1)
        (Sieve.Score.progressStep onp i total
          { acc with
            scored := acc.scored + 1,
            processed := acc.processed ++ [a.id],
            persisted := acc.persisted ++ [a.id],
            cf := 0 })
        (by rw [progressStep_stopped]; exact hacc) hft h3t
        (by rw [progressStep_cf]; simpa using lead_le_two sa xs h3t)
      refine ⟨r1, ?_⟩
      rw [r2, progressStep_processed]
      simp
    | false =>
      have hnf : (sa a).error_type ∉ Sieve.Score.FATAL_ERRORS :=
        hfat a (List.mem_cons_self _ _)
      have hlead : Sieve.Score.leadFailRun sa (a :: xs) =
          1 + Sieve.Score.leadFailRun sa xs := by
        simp [Sieve.Score.leadFailRun, hsucc]
      have hcf2 : acc.cf + 1 + Sieve.Score.leadFailRun sa xs ≤ 2 := by omega
      have hmax : ¬ (Sieve.Score.MAX_CONSECUTIVE_FAILURES ≤ acc.cf + 1) := by
        simp only [Sieve.Score.MAX_CONSECUTIVE_FAILURES]
        omega
      simp only [Sieve.Score.score_batch_go, hsucc, Bool.false_eq_true, if_false,
        if_neg hnf]
      rw [if_neg (by simpa using hmax)]
      obtain ⟨r1, r2⟩ := ih (i + 1)
        (Sieve.Score.progressStep onp i total
          { acc with
            failed := acc.failed + 1,
            errors := acc.errors ++ ["Article " ++ toString a.id ++ ": " ++
              Sieve.Score.errString (sa a).error_message],
            last_error := some (Sieve.Score.errString (sa a).error_message),
            processed := acc.processed ++ [a.id],
            cf := acc.cf + 1 })
        (by rw [progressStep_stopped]; exact hacc) hft h3t
        (by rw [progressStep_cf]; simpa using hcf2)
      refine ⟨r1, ?_⟩
      rw [r2, progressStep_processed]
      simp

/-- Witness for C10: the parser accepts `wildResponse` and the theorem's
conclusions hold for the extracted scores. -/
theorem score_parser_clamps_witness :
    (∀ p ∈ Sieve.Score.wildScores, 0 ≤ p.2 ∧ p.2 ≤ 3) ∧
    0 ≤ Sieve.Score.compute_composite Sieve.Score.wildScores ∧
    Sieve.Score.compute_composite Sieve.Score.wildScores ≤ 21 ∧
    1 ≤ Sieve.Score.compute_tier
        (Sieve.Score.compute_composite Sieve.Score.wildScores) ∧
    Sieve.Score.compute_tier
        (Sieve.Score.compute_composite Sieve.Score.wildScores) ≤ 5 := by
  have h := score_parser_clamps
  exact h.1 Sieve.Score.wildResponse Sieve.Score.wildScores h.2.2

theorem score_batch_unfold (articles : List Sieve.Score.Article)
    (sa : Sieve.Score.Article → Sieve.Score.ScoreResult)
    (onp : Option (Nat → Nat → Except String Unit))
    (h : articles.length ≠ 0) :
    Sieve.Score.score_batch articles sa onp =
      Sieve.Score.score_batch_go sa onp articles.length articles 0
        Sieve.Score.initBatchResult := by
  simp [Sieve.Score.score_batch, h]

/-- C2: if the batch reaches an item whose outcome is a fatal-class failure
(connection failure, model not found, server internal error), it aborts
immediately: no later item is processed, `stopped_early` is true, and
`last_error` is the failure message prefixed with "FATAL: ". -/
theorem score_batch_fatal_aborts
    (sa : Sieve.Score.Article → Sieve.Score.ScoreResult)
    (onp : Option (Nat → Nat → Except String Unit))
    (pre post : List Sieve.Score.Article) (a : Sieve.Score.Article)
    (hpre : (Sieve.Score.score_batch_go sa onp (pre ++ a :: post).length pre 0
      Sieve.Score.initBatchResult).stopped_early = false)
    (hsa : (sa a).success = false)
    (hfat : (sa a).error_type ∈ Sieve.Score.FATAL_ERRORS) :
    (Sieve.Score.score_batch (pre ++ a :: post) sa onp).stopped_early = true ∧
    (Sieve.Score.score_batch (pre ++ a :: post) sa onp).processed =
      pre.map (·.id) ++ [a.id] ∧
    (Sieve.Score.score_batch (pre ++ a :: post) sa onp).last_error =
      some ("FATAL: " ++ Sieve.Score.errString (sa a).error_message ++
        " - stopping batch") := by
  rw [score_batch_unfold _ _ _ (by simp),
    batch_go_append sa onp (pre ++ a :: post).length pre (a :: post) 0
      Sieve.Score.initBatchResult rfl hpre]
  have hproc := batch_go_processed sa onp (pre ++ a :: post).length pre 0
    Sieve.Score.initBatchResult rfl hpre
  obtain ⟨g1, g2, g3⟩ := go_fatal_head sa onp (pre ++ a :: post).length a post
    (0 + pre.length)
    (Sieve.Score.score_batch_go sa onp (pre ++ a :: post).length pre 0
      Sieve.Score.initBatchResult) hsa hfat
  refine ⟨g1, ?_, g3⟩
  rw [g2, hproc]
  simp [Sieve.Score.initBatchResult]

/-- Witness for C2: a one-item batch with a connection failure. -/
theorem score_batch_fatal_aborts_witness :
    (Sieve.Score.score_batch ([] ++ { id := 1 } :: [])
      (fun _ => Sieve.Score.connResult) none).stopped_early = true ∧
    (Sieve.Score.score_batch ([] ++ { id := 1 } :: [])
      (fun _ => Sieve.Score.connResult) none).processed =
      List.map (·.id) ([] : List Sieve.Score.Article) ++
        [(({ id := 1 } : Sieve.Score.Article)).id] ∧
    (Sieve.Score.score_batch ([] ++ { id := 1 } :: [])
      (fun _ => Sieve.Score.connResult) none).last_error =
      some ("FATAL: " ++
        Sieve.Score.errString ((fun _ => Sieve.Score.connResult)
          ({ id := 1 } : Sieve.Score.Article)).error_message ++
        " - stopping batch") :=
  score_batch_fatal_aborts (fun _ => Sieve.Score.connResult) none [] []
    { id := 1 } rfl rfl (by decide)

theorem batch_stops_after_third
    (sa : Sieve.Score.Article → Sieve.Score.ScoreResult)
    (onp : Option (Nat → Nat → Except String Unit))
    (pre post : List Sieve.Score.Article) (a b c : Sieve.Score.Article)
    (hpre : (Sieve.Score.score_batch_go sa onp (pre ++ a :: b :: c :: post).length
      pre 0 Sieve.Score.initBatchResult).stopped_early = false)
    (hcf : (Sieve.Score.score_batch_go sa onp (pre ++ a :: b :: c :: post).length
      pre 0 Sieve.Score.initBatchResult).cf = 0)
    (hsa : (sa a).success = false) (hsb : (sa b).success = false)
    (hsc : (sa c).success = false)
    (hna : (sa a).error_type ∉ Sieve.Score.FATAL_ERRORS)
    (hnb : (sa b).error_type ∉ Sieve.Score.FATAL_ERRORS)
    (hnc : (sa c).error_type ∉ Sieve.Score.FATAL_ERRORS) :
    (Sieve.Score.score_batch (pre ++ a :: b :: c :: post) sa onp).stopped_early
        = true ∧
    (Sieve.Score.score_batch (pre ++ a :: b :: c :: post) sa onp).processed =
      pre.map (·.id) ++ [a.id, b.id, c.id] ∧
    (Sieve.Score.score_batch (pre ++ a :: b :: c :: post) sa onp).last_error =
      some ("Stopped after 3 consecutive failures. Last: " ++
        Sieve.Score.errString (sa c).error_message) := by
  rw [score_batch_unfold _ _ _ (by simp),
    batch_go_append sa onp (pre ++ a :: b :: c :: post).length pre
      (a :: b :: c :: post) 0 Sieve.Score.initBatchResult rfl hpre]
  have hproc := batch_go_processed sa onp (pre ++ a :: b :: c :: post).length pre 0
    Sieve.Score.initBatchResult rfl hpre
  obtain ⟨g1, g2, g3⟩ := go_three_fails sa onp (pre ++ a :: b :: c :: post).length
    a b c post (0 + pre.length)
    (Sieve.Score.score_batch_go sa onp (pre ++ a :: b :: c :: post).length pre 0
      Sieve.Score.initBatchResult) hcf hsa hsb hsc hna hnb hnc
  refine ⟨g1, ?_, g3⟩
  rw [g2, hproc]
  simp [Sieve.Score.initBatchResult]

theorem batch_runs_all
    (sa : Sieve.Score.Article → Sieve.Score.ScoreResult)
    (onp : Option (Nat → Nat → Except String Unit))
    (articles : List Sieve.Score.Article)
    (hf : Sieve.Score.NoFatal sa articles)
    (h3 : Sieve.Score.NoThreeConsec sa articles) :
    (Sieve.Score.score_batch articles sa onp).stopped_early = false ∧
    (Sieve.Score.score_batch articles sa onp).processed =
      articles.map (·.id) := by
  by_cases hlen : articles.length = 0
  · rw [List.length_eq_zero] at hlen
    subst hlen
    exact ⟨rfl, rfl⟩
  · rw [score_batch_unfold _ _ _ hlen]
    have := batch_go_clean sa onp articles.length articles 0
      Sieve.Score.initBatchResult rfl hf h3
      (by simpa [Sieve.Score.initBatchResult] using lead_le_two sa articles h3)
    simpa [Sieve.Score.initBatchResult] using this

/-- C3: with no fatal failure, the batch stops (`stopped_early = true`)
immediately after the item that completes 3 consecutive retryable failures;
a success resets the consecutive-failure counter, so the outcome sequence
fail, fail, success, fail, fail, fail over six items stops the batch at the
6th item and not earlier; and with no window of 3 consecutive failures every
item is processed and the batch does not stop early. -/
theorem score_batch_three_consecutive :
    (∀ (sa : Sieve.Score.Article → Sieve.Score.ScoreResult)
       (onp : Option (Nat → Nat → Except String Unit))
       (pre post : List Sieve.Score.Article) (a b c : Sieve.Score.Article),
      (Sieve.Score.score_batch_go sa onp (pre ++ a :: b :: c :: post).length
        pre 0 Sieve.Score.initBatchResult).stopped_early = false →
      (Sieve.Score.score_batch_go sa onp (pre ++ a :: b :: c :: post).length
        pre 0 Sieve.Score.initBatchResult).cf = 0 →
      (sa a).success = false → (sa b).success = false →
      (sa c).success = false →
      (sa a).error_type ∉ Sieve.Score.FATAL_ERRORS →
      (sa b).error_type ∉ Sieve.Score.FATAL_ERRORS →
      (sa c).error_type ∉ Sieve.Score.FATAL_ERRORS →
      ((Sieve.Score.score_batch (pre ++ a :: b :: c :: post) sa onp).stopped_early
          = true ∧
       (Sieve.Score.score_batch (pre ++ a :: b :: c :: post) sa onp).processed =
         pre.map (·.id) ++ [a.id, b.id, c.id])) ∧
    ((Sieve.Score.score_batch Sieve.Score.sixArticles Sieve.Score.ffsFffSa
        none).stopped_early = true ∧
     (Sieve.Score.score_batch Sieve.Score.sixArticles Sieve.Score.ffsFffSa
        none).processed = [1, 2, 3, 4, 5, 6] ∧
     (Sieve.Score.score_batch Sieve.Score.sixArticles Sieve.Score.ffsFffSa
        none).scored = 1 ∧
     (Sieve.Score.score_batch Sieve.Score.sixArticles Sieve.Score.ffsFffSa
        none).failed = 5) ∧
    (∀ (sa : Sieve.Score.Article → Sieve.Score.ScoreResult)
       (onp : Option (Nat → Nat → Except String Unit))
       (articles : List Sieve.Score.Article),
      Sieve.Score.NoFatal sa articles →
      Sieve.Score.NoThreeConsec sa articles →
      ((Sieve.Score.score_batch articles sa onp).stopped_early = false ∧
       (Sieve.Score.score_batch articles sa onp).processed =
         articles.map (·.id))) := by
  refine ⟨?_, by decide, ?_⟩
  · intro sa onp pre post a b c hpre hcf hsa hsb hsc hna hnb hnc
    have h := batch_stops_after_third sa onp pre post a b c hpre hcf
      hsa hsb hsc hna hnb hnc
    exact ⟨h.1, h.2.1⟩
  · intro sa onp articles hf h3
    exact batch_runs_all sa onp articles hf h3

/-- Witness for C3: three straight timeouts stop a five-item batch after the
third item; a clean two-item batch processes everything. -/
theorem score_batch_three_consecutive_witness :
    ((Sieve.Score.score_batch
        ([] ++ { id := 1 } :: { id := 2 } :: { id := 3 } ::
          [({ id := 4 } : Sieve.Score.Article), { id := 5 }])
        (fun _ => Sieve.Score.timeoutResult) none).stopped_early = true ∧
     (Sieve.Score.score_batch
        ([] ++ { id := 1 } :: { id := 2 } :: { id := 3 } ::
          [({ id := 4 } : Sieve.Score.Article), { id := 5 }])
        (fun _ => Sieve.Score.timeoutResult) none).processed =
       List.map (·.id) ([] : List Sieve.Score.Article) ++ [1, 2, 3]) ∧
    ((Sieve.Score.score_batch [({ id := 7 } : Sieve.Score.Article)]
        (fun _ => Sieve.Score.okResult) none).stopped_early = false ∧
     (Sieve.Score.score_batch [({ id := 7 } : Sieve.Score.Article)]
        (fun _ => Sieve.Score.okResult) none).processed =
       List.map (·.id) [({ id := 7 } : Sieve.Score.Article)]) := by
  constructor
  · exact score_batch_three_consecutive.1 (fun _ => Sieve.Score.timeoutResult)
      none [] [{ id := 4 }, { id := 5 }] { id := 1 } { id := 2 } { id := 3 }
      rfl rfl rfl rfl rfl (by decide) (by decide) (by decide)
  · exact score_batch_three_consecutive.2.2 (fun _ => Sieve.Score.okResult)
      none [{ id := 7 }]
      (by
        intro x hx
        show Sieve.Score.ErrorType.errNone ∉ Sieve.Score.FATAL_ERRORS
        decide)
      (by
        intro x y z hinf
        simp [Sieve.Score.okResult])

/-- Counterexample for C4: in a one-item batch whose single item fails
fatally, the item is processed but the progress callback is never invoked —
the `break` happens before the progress call, so the stopping item does not
receive its `(i+1, total)` callback, contrary to the claim. -/
theorem score_batch_progress_counterexample :
    (Sieve.Score.score_batch [{ id := 1 }] (fun _ => Sieve.Score.connResult)
      (some (fun _ _ => Except.ok ()))).processed = [1] ∧
    (Sieve.Score.score_batch [{ id := 1 }] (fun _ => Sieve.Score.connResult)
      (some (fun _ _ => Except.ok ()))).progressCalls = [] := by
  exact ⟨rfl, rfl⟩

theorem batch_go_cb_irrel (sa : Sieve.Score.Article → Sieve.Score.ScoreResult)
    (total : Nat) (f g : Nat → Nat → Except String Unit) :
    ∀ (xs : List Sieve.Score.Article) (i : Nat) (acc : Sieve.Score.BatchResult),
      Sieve.Score.score_batch_go sa (some f) total xs i acc =
        Sieve.Score.score_batch_go sa (some g) total xs i acc := by
  intro xs
  induction xs with
  | nil => intro i acc; rfl
  | cons a xs ih =>
    intro i acc
    cases hsucc : (sa a).success with
    | true =>
      simp only [Sieve.Score.score_batch_go, hsucc, if_true,
        Sieve.Score.progressStep]
      exact ih _ _
    | false =>
      simp only [Sieve.Score.score_batch_go, hsucc, Bool.false_eq_true, if_false]
      split_ifs with h1 h2
      · rfl
      · rfl
      · simp only [Sieve.Score.progressStep]
        exact ih _ _

theorem batch_go_progress_pattern
    (sa : Sieve.Score.Article → Sieve.Score.ScoreResult)
    (f : Nat → Nat → Except String Unit) (total : Nat) :
    ∀ (xs : List Sieve.Score.Article) (i : Nat) (acc : Sieve.Score.BatchResult),
      acc.stopped_early = false →
      acc.processed.length = i →
      acc.progressCalls = (List.range i).map (fun j => (j + 1, total)) →
      (Sieve.Score.score_batch_go sa (some f) total xs i acc).progressCalls =
        (List.range
          ((Sieve.Score.score_batch_go sa (some f) total xs i acc).processed.length -
            (if (Sieve.Score.score_batch_go sa (some f) total xs i acc).stopped_early
             then 1 else 0))).map (fun j => (j + 1, total)) := by
  intro xs
  induction xs with
  | nil =>
    intro i acc hacc hlen hprog
    simpa [Sieve.Score.score_batch_go, hacc, hlen] using hprog
  | cons a xs ih =>
    intro i acc hacc hlen hprog
    cases hsucc : (sa a).success with
    | true =>
      simp only [Sieve.Score.score_batch_go, hsucc, if_true]
      refine ih (i + 1) _ ?_ ?_ ?_
      · simp [Sieve.Score.progressStep, hacc]
      · simp [Sieve.Score.progressStep, hlen]
      · simp [Sieve.Score.progressStep, hprog, List.range_succ]
    | false =>
      by_cases h1 : (sa a).error_type ∈ Sieve.Score.FATAL_ERRORS
      · simp only [Sieve.Score.score_batch_go, hsucc, Bool.false_eq_true, if_false,
          if_pos h1]
        simp [hprog, hlen]
      · by_cases h2 : Sieve.Score.MAX_CONSECUTIVE_FAILURES ≤ acc.cf + 1
        · simp only [Sieve.Score.score_batch_go, hsucc, Bool.false_eq_true,
            if_false, if_neg h1]
          rw [if_pos (by simpa using h2)]
          simp [hprog, hlen]
        · simp only [Sieve.Score.score_batch_go, hsucc, Bool.false_eq_true,
            if_false, if_neg h1]
          rw [if_neg (by simpa using h2)]
          refine ih (i + 1) _ ?_ ?_ ?_
          · simp [Sieve.Score.progressStep, hacc]
          · simp [Sieve.Score.progressStep, hlen]
          · simp [Sieve.Score.progressStep, hprog, List.range_succ]

/-- C4 amended: the progress callback is invoked with `(i+1, total)` after
every processed item except the one whose fatal failure or third consecutive
retryable failure stops the batch (the `break` skips that item's callback),
and the batch result does not depend on the callback function at all — in
particular a raising callback never aborts the batch. -/
theorem score_batch_progress_amended :
    (∀ (items : List Sieve.Score.Article)
       (sa : Sieve.Score.Article → Sieve.Score.ScoreResult)
       (f g : Nat → Nat → Except String Unit),
      Sieve.Score.score_batch items sa (some f) =
        Sieve.Score.score_batch items sa (some g)) ∧
    (∀ (items : List Sieve.Score.Article)
       (sa : Sieve.Score.Article → Sieve.Score.ScoreResult)
       (f : Nat → Nat → Except String Unit),
      (Sieve.Score.score_batch items sa (some f)).progressCalls =
        (List.range
          ((Sieve.Score.score_batch items sa (some f)).processed.length -
            (if (Sieve.Score.score_batch items sa (some f)).stopped_early
             then 1 else 0))).map (fun j => (j + 1, items.length))) := by
  constructor
  · intro items sa f g
    by_cases h : items.length = 0
    · simp [Sieve.Score.score_batch, h]
    · rw [score_batch_unfold _ _ _ h, score_batch_unfold _ _ _ h]
      exact batch_go_cb_irrel sa items.length f g items 0 _
  · intro items sa f
    by_cases h : items.length = 0
    · simp [Sieve.Score.score_batch, h, Sieve.Score.initBatchResult]
    · rw [score_batch_unfold _ _ _ h]
      exact batch_go_progress_pattern sa f items.length items 0
        Sieve.Score.initBatchResult rfl rfl (by simp [Sieve.Score.initBatchResult])

/-- Witness for C4's amended claim: on the six-item example the callback
fires for items 1–5 but not for the stopping 6th item. -/
theorem score_batch_progress_amended_witness :
    (Sieve.Score.score_batch Sieve.Score.sixArticles Sieve.Score.ffsFffSa
      (some (fun _ _ => Except.ok ()))).progressCalls =
      [(1, 6), (2, 6), (3, 6), (4, 6), (5, 6)] := by
  have h := score_batch_progress_amended.2 Sieve.Score.sixArticles
    Sieve.Score.ffsFffSa (fun _ _ => Except.ok ())
  rw [h]
  rfl

set_option maxHeartbeats 2000000 in
/-- C1: a raising fatal-tier stage (Ingest, Compress, Summarize, Embed,
Score) stops the run at once with `success = false`, leaving the later
stages unexecuted and their report slots null (in particular, for an Embed
failure, ExtractEntities/ClassifyTopics/DetectThreads); a raising
advisory-tier stage is recorded as an error value in its own slot, every
following stage still executes, and `success` stays true. -/
theorem pipeline_two_tier
    (B : Type) (p : String)
    (onp : Sieve.Pipeline.Stage → Nat → Nat → String → Except String Unit)
    (hprog : ∀ s a b m, onp s a b m = Except.ok ())
    (ir : Sieve.Pipeline.IngestRes) (cr : Sieve.Pipeline.CompressRes)
    (sb eb scb : B) (msg : String)
    (cE : Except String Sieve.Pipeline.CompressRes)
    (s3 s4 s5 aE tE : Except String B)
    (thE : Except String Sieve.Pipeline.ThreadRes) (t0 t1 : String) :
    ((Sieve.Pipeline.run_pipeline (some p) onp (.error msg) cE s3 s4 s5 aE tE
        thE t0 t1).success = false ∧
     (Sieve.Pipeline.run_pipeline (some p) onp (.error msg) cE s3 s4 s5 aE tE
        thE t0 t1).error = some ("Ingest failed: " ++ msg) ∧
     (Sieve.Pipeline.run_pipeline (some p) onp (.error msg) cE s3 s4 s5 aE tE
        thE t0 t1).executed = [.ingest] ∧
     (Sieve.Pipeline.run_pipeline (some p) onp (.error msg) cE s3 s4 s5 aE tE
        thE t0 t1).entities = none ∧
     (Sieve.Pipeline.run_pipeline (some p) onp (.error msg) cE s3 s4 s5 aE tE
        thE t0 t1).topics = none ∧
     (Sieve.Pipeline.run_pipeline (some p) onp (.error msg) cE s3 s4 s5 aE tE
        thE t0 t1).threads = none) ∧
    ((Sieve.Pipeline.run_pipeline (some p) onp (.ok ir) (.error msg) s3 s4 s5
        aE tE thE t0 t1).success = false ∧
     (Sieve.Pipeline.run_pipeline (some p) onp (.ok ir) (.error msg) s3 s4 s5
        aE tE thE t0 t1).error = some ("Compression failed: " ++ msg) ∧
     (Sieve.Pipeline.run_pipeline (some p) onp (.ok ir) (.error msg) s3 s4 s5
        aE tE thE t0 t1).executed = [.ingest, .compress] ∧
     (Sieve.Pipeline.run_pipeline (some p) onp (.ok ir) (.error msg) s3 s4 s5
        aE tE thE t0 t1).entities = none ∧
     (Sieve.Pipeline.run_pipeline (some p) onp (.ok ir) (.error msg) s3 s4 s5
        aE tE thE t0 t1).topics = none ∧
     (Sieve.Pipeline.run_pipeline (some p) onp (.ok ir) (.error msg) s3 s4 s5
        aE tE thE t0 t1).threads = none) ∧
    ((Sieve.Pipeline.run_pipeline (some p) onp (.ok ir) (.ok cr) (.error msg)
        s4 s5 aE tE thE t0 t1).success = false ∧
     (Sieve.Pipeline.run_pipeline (some p) onp (.ok ir) (.ok cr) (.error msg)
        s4 s5 aE tE thE t0 t1).error = some ("Summarization failed: " ++ msg) ∧
     (Sieve.Pipeline.run_pipeline (some p) onp (.ok ir) (.ok cr) (.error msg)
        s4 s5 aE tE thE t0 t1).executed = [.ingest, .compress, .summarize] ∧
     (Sieve.Pipeline.run_pipeline (some p) onp (.ok ir) (.ok cr) (.error msg)
        s4 s5 aE tE thE t0 t1).entities = none ∧
     (Sieve.Pipeline.run_pipeline (some p) onp (.ok ir) (.ok cr) (.error msg)
        s4 s5 aE tE thE t0 t1).topics = none ∧
     (Sieve.Pipeline.run_pipeline (some p) onp (.ok ir) (.ok cr) (.error msg)
        s4 s5 aE tE thE t0 t1).threads = none) ∧
    ((Sieve.Pipeline.run_pipeline (some p) onp (.ok ir) (.ok cr) (.ok sb)
        (.error msg) s5 aE tE thE t0 t1).success = false ∧
     (Sieve.Pipeline.run_pipeline (some p) onp (.ok ir) (.ok cr) (.ok sb)
        (.error msg) s5 aE tE thE t0 t1).error =
       some ("Embedding failed: " ++ msg) ∧
     (Sieve.Pipeline.run_pipeline (some p) onp (.ok ir) (.ok cr) (.ok sb)
        (.error msg) s5 aE tE thE t0 t1).executed =
       [.ingest, .compress, .summarize, .embed] ∧
     (Sieve.Pipeline.run_pipeline (some p) onp (.ok ir) (.ok cr) (.ok sb)
        (.error msg) s5 aE tE thE t0 t1).score = none ∧
     (Sieve.Pipeline.run_pipeline (some p) onp (.ok ir) (.ok cr) (.ok sb)
        (.error msg) s5 aE tE thE t0 t1).entities = none ∧
     (Sieve.Pipeline.run_pipeline (some p) onp (.ok ir) (.ok cr) (.ok sb)
        (.error msg) s5 aE tE thE t0 t1).topics = none ∧
     (Sieve.Pipeline.run_pipeline (some p) onp (.ok ir) (.ok cr) (.ok sb)
        (.error msg) s5 aE tE thE t0 t1).threads = none) ∧
    ((Sieve.Pipeline.run_pipeline (some p) onp (.ok ir) (.ok cr) (.ok sb)
        (.ok eb) (.error msg) aE tE thE t0 t1).success = false ∧
     (Sieve.Pipeline.run_pipeline (some p) onp (.ok ir) (.ok cr) (.ok sb)
        (.ok eb) (.error msg) aE tE thE t0 t1).error =
       some ("Scoring failed: " ++ msg) ∧
     (Sieve.Pipeline.run_pipeline (some p) onp (.ok ir) (.ok cr) (.ok sb)
        (.ok eb) (.error msg) aE tE thE t0 t1).executed =
       [.ingest, .compress, .summarize, .embed, .score] ∧
     (Sieve.Pipeline.run_pipeline (some p) onp (.ok ir) (.ok cr) (.ok sb)
        (.ok eb) (.error msg) aE tE thE t0 t1).entities = none ∧
     (Sieve.Pipeline.run_pipeline (some p) onp (.ok ir) (.ok cr) (.ok sb)
        (.ok eb) (.error msg) aE tE thE t0 t1).topics = none ∧
     (Sieve.Pipeline.run_pipeline (some p) onp (.ok ir) (.ok cr) (.ok sb)
        (.ok eb) (.error msg) aE tE thE t0 t1).threads = none) ∧
    ((Sieve.Pipeline.run_pipeline (some p) onp (.ok ir) (.ok cr) (.ok sb)
        (.ok eb) (.ok scb) aE tE thE t0 t1).success = true ∧
     (Sieve.Pipeline.run_pipeline (some p) onp (.ok ir) (.ok cr) (.ok sb)
        (.ok eb) (.ok scb) aE tE thE t0 t1).executed =
       [.ingest, .compress, .summarize, .embed, .score, .entities, .topics,
        .threads] ∧
     (Sieve.Pipeline.run_pipeline (some p) onp (.ok ir) (.ok cr) (.ok sb)
        (.ok eb) (.ok scb) aE tE thE t0 t1).entities = some aE ∧
     (Sieve.Pipeline.run_pipeline (some p) onp (.ok ir) (.ok cr) (.ok sb)
        (.ok eb) (.ok scb) aE tE thE t0 t1).topics = some tE ∧
     (Sieve.Pipeline.run_pipeline (some p) onp (.ok ir) (.ok cr) (.ok sb)
        (.ok eb) (.ok scb) aE tE thE t0 t1).threads = some thE ∧
     (Sieve.Pipeline.run_pipeline (some p) onp (.ok ir) (.ok cr) (.ok sb)
        (.ok eb) (.ok scb) aE tE thE t0 t1).finished_at = some t1) := by
  refine ⟨?_, ?_, ?_, ?_, ?_, ?_⟩
  · simp [Sieve.Pipeline.run_pipeline, hprog]
  · simp [Sieve.Pipeline.run_pipeline, hprog]
  · simp [Sieve.Pipeline.run_pipeline, hprog]
  · simp [Sieve.Pipeline.run_pipeline, hprog]
  · simp [Sieve.Pipeline.run_pipeline, hprog]
  · cases aE <;> cases tE <;> cases thE <;>
      simp [Sieve.Pipeline.run_pipeline, hprog]

/-- Witness for C1: an Embed failure leaves the advisory stages unexecuted
with `success = false`, and an ExtractEntities failure is recorded while the
run succeeds. -/
theorem pipeline_two_tier_witness :
    ((Sieve.Pipeline.run_pipeline (B := Unit) (some "p")
        Sieve.Pipeline.okProgress (.ok ⟨1, 2, []⟩) (.ok ⟨3, 3, 0⟩) (.ok ())
        (.error "boom") (.ok ()) (.error "entity fail") (.ok ())
        (.ok ⟨0, 0, 0⟩) "t0" "t1").success = false ∧
     (Sieve.Pipeline.run_pipeline (B := Unit) (some "p")
        Sieve.Pipeline.okProgress (.ok ⟨1, 2, []⟩) (.ok ⟨3, 3, 0⟩) (.ok ())
        (.error "boom") (.ok ()) (.error "entity fail") (.ok ())
        (.ok ⟨0, 0, 0⟩) "t0" "t1").executed =
       [.ingest, .compress, .summarize, .embed] ∧
     (Sieve.Pipeline.run_pipeline (B := Unit) (some "p")
        Sieve.Pipeline.okProgress (.ok ⟨1, 2, []⟩) (.ok ⟨3, 3, 0⟩) (.ok ())
        (.error "boom") (.ok ()) (.error "entity fail") (.ok ())
        (.ok ⟨0, 0, 0⟩) "t0" "t1").entities = none) ∧
    ((Sieve.Pipeline.run_pipeline (B := Unit) (some "p")
        Sieve.Pipeline.okProgress (.ok ⟨1, 2, []⟩) (.ok ⟨3, 3, 0⟩) (.ok ())
        (.ok ()) (.ok ()) (.error "entity fail") (.ok ()) (.ok ⟨0, 0, 0⟩)
        "t0" "t1").success = true ∧
     (Sieve.Pipeline.run_pipeline (B := Unit) (some "p")
        Sieve.Pipeline.okProgress (.ok ⟨1, 2, []⟩) (.ok ⟨3, 3, 0⟩) (.ok ())
        (.ok ()) (.ok ()) (.error "entity fail") (.ok ()) (.ok ⟨0, 0, 0⟩)
        "t0" "t1").entities = some (.error "entity fail") ∧
     (Sieve.Pipeline.run_pipeline (B := Unit) (some "p")
        Sieve.Pipeline.okProgress (.ok ⟨1, 2, []⟩) (.ok ⟨3, 3, 0⟩) (.ok ())
        (.ok ()) (.ok ()) (.error "entity fail") (.ok ()) (.ok ⟨0, 0, 0⟩)
        "t0" "t1").executed =
       [.ingest, .compress, .summarize, .embed, .score, .entities, .topics,
        .threads]) := by
  have h := pipeline_two_tier Unit "p" Sieve.Pipeline.okProgress
    (fun _ _ _ _ => rfl) ⟨1, 2, []⟩ ⟨3, 3, 0⟩ () () () "boom"
    (.ok ⟨3, 3, 0⟩) (.ok ()) (.ok ()) (.ok ()) (.error "entity fail")
    (.ok ()) (.ok ⟨0, 0, 0⟩) "t0" "t1"
  exact ⟨⟨h.2.2.2.1.1, h.2.2.2.1.2.2.1, h.2.2.2.1.2.2.2.2.1⟩,
    ⟨h.2.2.2.2.2.1, h.2.2.2.2.2.2.2.1, h.2.2.2.2.2.2.1⟩⟩

/-- Counterexample for C8: a run aborted by the missing-ingest-source
precondition returns `success = false` with an error message, but its
`finished_at` stays null — contrary to the claim that every fatal ending
sets `finishedAt`. -/
theorem pipeline_precondition_counterexample :
    (Sieve.Pipeline.run_pipeline (B := Unit) none Sieve.Pipeline.okProgress
      (.ok ⟨0, 0, []⟩) (.ok ⟨0, 0, 0⟩) (.ok ()) (.ok ()) (.ok ()) (.ok ())
      (.ok ()) (.ok ⟨0, 0, 0⟩) "t0" "t1").success = false ∧
    (Sieve.Pipeline.run_pipeline (B := Unit) none Sieve.Pipeline.okProgress
      (.ok ⟨0, 0, []⟩) (.ok ⟨0, 0, 0⟩) (.ok ()) (.ok ()) (.ok ()) (.ok ())
      (.ok ()) (.ok ⟨0, 0, 0⟩) "t0" "t1").error =
      some "No JSONL path configured" ∧
    (Sieve.Pipeline.run_pipeline (B := Unit) none Sieve.Pipeline.okProgress
      (.ok ⟨0, 0, []⟩) (.ok ⟨0, 0, 0⟩) (.ok ()) (.ok ()) (.ok ()) (.ok ())
      (.ok ()) (.ok ⟨0, 0, 0⟩) "t0" "t1").finished_at = none :=
  ⟨rfl, rfl, rfl⟩

set_option maxHeartbeats 2000000 in
/-- C8 amended: a run stopped by a fatal-tier exception returns
`success = false`, a prefixed error message and `finished_at` set, without
attempting any remaining stage; the missing-ingest-source precondition also
returns `success = false` with an error and attempts no stage, but leaves
`finished_at` null. -/
theorem pipeline_fatal_report_amended
    (B : Type) (p : String)
    (onp : Sieve.Pipeline.Stage → Nat → Nat → String → Except String Unit)
    (hprog : ∀ s a b m, onp s a b m = Except.ok ())
    (ir : Sieve.Pipeline.IngestRes) (cr : Sieve.Pipeline.CompressRes)
    (sb eb : B) (msg : String)
    (iE : Except String Sieve.Pipeline.IngestRes)
    (cE : Except String Sieve.Pipeline.CompressRes)
    (s3 s4 s5 aE tE : Except String B)
    (thE : Except String Sieve.Pipeline.ThreadRes) (t0 t1 : String) :
    ((Sieve.Pipeline.run_pipeline none onp iE cE s3 s4 s5 aE tE thE t0
        t1).success = false ∧
     (Sieve.Pipeline.run_pipeline none onp iE cE s3 s4 s5 aE tE thE t0
        t1).error = some "No JSONL path configured" ∧
     (Sieve.Pipeline.run_pipeline none onp iE cE s3 s4 s5 aE tE thE t0
        t1).executed = [] ∧
     (Sieve.Pipeline.run_pipeline none onp iE cE s3 s4 s5 aE tE thE t0
        t1).finished_at = none) ∧
    ((Sieve.Pipeline.run_pipeline (some p) onp (.error msg) cE s3 s4 s5 aE tE
        thE t0 t1).success = false ∧
     (Sieve.Pipeline.run_pipeline (some p) onp (.error msg) cE s3 s4 s5 aE tE
        thE t0 t1).error = some ("Ingest failed: " ++ msg) ∧
     (Sieve.Pipeline.run_pipeline (some p) onp (.error msg) cE s3 s4 s5 aE tE
        thE t0 t1).finished_at = some t1 ∧
     (Sieve.Pipeline.run_pipeline (some p) onp (.error msg) cE s3 s4 s5 aE tE
        thE t0 t1).executed = [.ingest]) ∧
    ((Sieve.Pipeline.run_pipeline (some p) onp (.ok ir) (.error msg) s3 s4 s5
        aE tE thE t0 t1).success = false ∧
     (Sieve.Pipeline.run_pipeline (some p) onp (.ok ir) (.error msg) s3 s4 s5
        aE tE thE t0 t1).error = some ("Compression failed: " ++ msg) ∧
     (Sieve.Pipeline.run_pipeline (some p) onp (.ok ir) (.error msg) s3 s4 s5
        aE tE thE t0 t1).finished_at = some t1 ∧
     (Sieve.Pipeline.run_pipeline (some p) onp (.ok ir) (.error msg) s3 s4 s5
        aE tE thE t0 t1).executed = [.ingest, .compress]) ∧
    ((Sieve.Pipeline.run_pipeline (some p) onp (.ok ir) (.ok cr) (.error msg)
        s4 s5 aE tE thE t0 t1).success = false ∧
     (Sieve.Pipeline.run_pipeline (some p) onp (.ok ir) (.ok cr) (.error msg)
        s4 s5 aE tE thE t0 t1).error =
       some ("Summarization failed: " ++ msg) ∧
     (Sieve.Pipeline.run_pipeline (some p) onp (.ok ir) (.ok cr) (.error msg)
        s4 s5 aE tE thE t0 t1).finished_at = some t1 ∧
     (Sieve.Pipeline.run_pipeline (some p) onp (.ok ir) (.ok cr) (.error msg)
        s4 s5 aE tE thE t0 t1).executed = [.ingest, .compress, .summarize]) ∧
    ((Sieve.Pipeline.run_pipeline (some p) onp (.ok ir) (.ok cr) (.ok sb)
        (.error msg) s5 aE tE thE t0 t1).success = false ∧
     (Sieve.Pipeline.run_pipeline (some p) onp (.ok ir) (.ok cr) (.ok sb)
        (.error msg) s5 aE tE thE t0 t1).error =
       some ("Embedding failed: " ++ msg) ∧
     (Sieve.Pipeline.run_pipeline (some p) onp (.ok ir) (.ok cr) (.ok sb)
        (.error msg) s5 aE tE thE t0 t1).finished_at = some t1 ∧
     (Sieve.Pipeline.run_pipeline (some p) onp (.ok ir) (.ok cr) (.ok sb)
        (.error msg) s5 aE tE thE t0 t1).executed =
       [.ingest, .compress, .summarize, .embed]) ∧
    ((Sieve.Pipeline.run_pipeline (some p) onp (.ok ir) (.ok cr) (.ok sb)
        (.ok eb) (.error msg) aE tE thE t0 t1).success = false ∧
     (Sieve.Pipeline.run_pipeline (some p) onp (.ok ir) (.ok cr) (.ok sb)
        (.ok eb) (.error msg) aE tE thE t0 t1).error =
       some ("Scoring failed: " ++ msg) ∧
     (Sieve.Pipeline.run_pipeline (some p) onp (.ok ir) (.ok cr) (.ok sb)
        (.ok eb) (.error msg) aE tE thE t0 t1).finished_at = some t1 ∧
     (Sieve.Pipeline.run_pipeline (some p) onp (.ok ir) (.ok cr) (.ok sb)
        (.ok eb) (.error msg) aE tE thE t0 t1).executed =
       [.ingest, .compress, .summarize, .embed, .score]) := by
  refine ⟨?_, ?_, ?_, ?_, ?_, ?_⟩
  · simp [Sieve.Pipeline.run_pipeline]
  · simp [Sieve.Pipeline.run_pipeline, hprog]
  · simp [Sieve.Pipeline.run_pipeline, hprog]
  · simp [Sieve.Pipeline.run_pipeline, hprog]
  · simp [Sieve.Pipeline.run_pipeline, hprog]
  · simp [Sieve.Pipeline.run_pipeline, hprog]

/-- Witness for C8's amended claim: the precondition path and an Ingest
exception, at concrete inputs. -/
theorem pipeline_fatal_report_amended_witness :
    ((Sieve.Pipeline.run_pipeline (B := Unit) none Sieve.Pipeline.okProgress
        (.error "io error") (.ok ⟨0, 0, 0⟩) (.ok ()) (.ok ()) (.ok ())
        (.ok ()) (.ok ()) (.ok ⟨0, 0, 0⟩) "t0" "t1").finished_at = none ∧
     (Sieve.Pipeline.run_pipeline (B := Unit) none Sieve.Pipeline.okProgress
        (.error "io error") (.ok ⟨0, 0, 0⟩) (.ok ()) (.ok ()) (.ok ())
        (.ok ()) (.ok ()) (.ok ⟨0, 0, 0⟩) "t0" "t1").success = false) ∧
    ((Sieve.Pipeline.run_pipeline (B := Unit) (some "p")
        Sieve.Pipeline.okProgress (.error "io error") (.ok ⟨0, 0, 0⟩)
        (.ok ()) (.ok ()) (.ok ()) (.ok ()) (.ok ()) (.ok ⟨0, 0, 0⟩)
        "t0" "t1").success = false ∧
     (Sieve.Pipeline.run_pipeline (B := Unit) (some "p")
        Sieve.Pipeline.okProgress (.error "io error") (.ok ⟨0, 0, 0⟩)
        (.ok ()) (.ok ()) (.ok ()) (.ok ()) (.ok ()) (.ok ⟨0, 0, 0⟩)
        "t0" "t1").error = some ("Ingest failed: " ++ "io error") ∧
     (Sieve.Pipeline.run_pipeline (B := Unit) (some "p")
        Sieve.Pipeline.okProgress (.error "io error") (.ok ⟨0, 0, 0⟩)
        (.ok ()) (.ok ()) (.ok ()) (.ok ()) (.ok ()) (.ok ⟨0, 0, 0⟩)
        "t0" "t1").finished_at = some "t1") := by
  have h := pipeline_fatal_report_amended Unit "p" Sieve.Pipeline.okProgress
    (fun _ _ _ _ => rfl) ⟨0, 0, []⟩ ⟨0, 0, 0⟩ () () "io error"
    (.error "io error") (.ok ⟨0, 0, 0⟩) (.ok ()) (.ok ()) (.ok ()) (.ok ())
    (.ok ()) (.ok ⟨0, 0, 0⟩) "t0" "t1"
  exact ⟨⟨h.1.2.2.2, h.1.1⟩, ⟨h.2.1.1, h.2.1.2.1, h.2.1.2.2.1⟩⟩

set_option maxRecDepth 100000 in
/-- Counterexample for C5: on the six-article scenario the second,
unchanged-input pass reports `threads_updated = 1`, not `0` — the
fully-overlapping component re-selects the existing thread and the source
unconditionally counts it as updated. -/
theorem detect_threads_second_pass_counterexample :
    (Sieve.Threads.detect_threads Sieve.Threads.sixThreadArticles
      Sieve.Threads.mutualKnn
      (Sieve.Threads.detect_threads Sieve.Threads.sixThreadArticles
        Sieve.Threads.mutualKnn Sieve.Threads.emptyStore).2).1.threads_updated
      = 1 ∧
    ¬ ((Sieve.Threads.detect_threads Sieve.Threads.sixThreadArticles
      Sieve.Threads.mutualKnn
      (Sieve.Threads.detect_threads Sieve.Threads.sixThreadArticles
        Sieve.Threads.mutualKnn Sieve.Threads.emptyStore).2).1.threads_updated
      = 0) := by
  exact ⟨rfl, by decide⟩

set_option maxRecDepth 100000 in
set_option maxHeartbeats 2000000 in
/-- C5 amended: six articles sharing 3 entities and mutual nearest
neighbours yield exactly one thread with all 6 members; the second pass on
the unchanged set creates no thread (`threads_created = 0`) and leaves the
store unchanged (the member union is idempotent), but reports
`threads_updated = 1` because the fully-matching component re-selects the
existing thread. -/
theorem detect_threads_six_cluster :
    (Sieve.Threads.detect_threads Sieve.Threads.sixThreadArticles
      Sieve.Threads.mutualKnn Sieve.Threads.emptyStore).1 = ⟨1, 0, 6⟩ ∧
    (Sieve.Threads.detect_threads Sieve.Threads.sixThreadArticles
      Sieve.Threads.mutualKnn Sieve.Threads.emptyStore).2 =
      { memberships := [(1, [1, 2, 3, 4, 5, 6])], next_id := 2 } ∧
    (Sieve.Threads.detect_threads Sieve.Threads.sixThreadArticles
      Sieve.Threads.mutualKnn
      (Sieve.Threads.detect_threads Sieve.Threads.sixThreadArticles
        Sieve.Threads.mutualKnn Sieve.Threads.emptyStore).2).1 = ⟨0, 1, 6⟩ ∧
    (Sieve.Threads.detect_threads Sieve.Threads.sixThreadArticles
      Sieve.Threads.mutualKnn
      (Sieve.Threads.detect_threads Sieve.Threads.sixThreadArticles
        Sieve.Threads.mutualKnn Sieve.Threads.emptyStore).2).2 =
      (Sieve.Threads.detect_threads Sieve.Threads.sixThreadArticles
        Sieve.Threads.mutualKnn Sieve.Threads.emptyStore).2 := by
  exact ⟨rfl, rfl, rfl, rfl⟩

theorem selectGo_max (cluster : List Nat) :
    ∀ (ms : List (Nat × List Nat)) (best : Option Nat) (bo : Nat),
      bo ≤ (Sieve.Threads.selectGo cluster ms best bo).2 ∧
      ∀ p ∈ ms,
        2 * (Sieve.Threads.interL cluster p.2).length > cluster.length →
        (Sieve.Threads.interL cluster p.2).length ≤
          (Sieve.Threads.selectGo cluster ms best bo).2 := by
  intro ms
  induction ms with
  | nil =>
    intro best bo
    exact ⟨le_refl _, by simp⟩
  | cons p rest ih =>
    intro best bo
    simp only [Sieve.Threads.selectGo]
    by_cases h : 2 * (Sieve.Threads.interL cluster p.2).length > cluster.length ∧
        (Sieve.Threads.interL cluster p.2).length > bo
    · rw [if_pos h]
      obtain ⟨h1, h2⟩ := ih (some p.1) (Sieve.Threads.interL cluster p.2).length
      refine ⟨le_trans (le_of_lt h.2) h1, ?_⟩
      intro q hq hqual
      rcases List.mem_cons.mp hq with rfl | hq'
      · exact h1
      · exact h2 q hq' hqual
    · rw [if_neg h]
      obtain ⟨h1, h2⟩ := ih best bo
      refine ⟨h1, ?_⟩
      intro q hq hqual
      rcases List.mem_cons.mp hq with rfl | hq'
      · have hle : (Sieve.Threads.interL cluster q.2).length ≤ bo :=
          le_of_not_lt (fun hh => h ⟨hqual, hh⟩)
        exact le_trans hle h1
      · exact h2 q hq' hqual

theorem selectGo_spec (cluster : List Nat) :
    ∀ (ms : List (Nat × List Nat)) (best : Option Nat) (bo : Nat),
      Sieve.Threads.selectGo cluster ms best bo = (best, bo) ∨
      (∃ tid m, (tid, m) ∈ ms ∧
        (Sieve.Threads.selectGo cluster ms best bo).1 = some tid ∧
        (Sieve.Threads.interL cluster m).length =
          (Sieve.Threads.selectGo cluster ms best bo).2 ∧
        2 * (Sieve.Threads.selectGo cluster ms best bo).2 > cluster.length) := by
  intro ms
  induction ms with
  | nil =>
    intro best bo
    exact Or.inl rfl
  | cons p rest ih =>
    intro best bo
    simp only [Sieve.Threads.selectGo]
    by_cases h : 2 * (Sieve.Threads.interL cluster p.2).length > cluster.length ∧
        (Sieve.Threads.interL cluster p.2).length > bo
    · rw [if_pos h]
      rcases ih (some p.1) (Sieve.Threads.interL cluster p.2).length with heq | hex
      · right
        refine ⟨p.1, p.2, by simp, ?_, ?_, ?_⟩
        · rw [heq]
        · rw [heq]
        · rw [heq]
          exact h.1
      · right
        obtain ⟨tid, m, hm, h1, h2, h3⟩ := hex
        exact ⟨tid, m, List.mem_cons_of_mem _ hm, h1, h2, h3⟩
    · rw [if_neg h]
      rcases ih best bo with heq | hex
      · exact Or.inl heq
      · right
        obtain ⟨tid, m, hm, h1, h2, h3⟩ := hex
        exact ⟨tid, m, List.mem_cons_of_mem _ hm, h1, h2, h3⟩

/-- C6: a component is merged into an existing thread only when its overlap
ratio with that thread's members strictly exceeds 0.5, and the selected
thread has the highest overlap among those qualifying; component
{3,4,5,6,7,8} against a thread {1,2,3,4,5} (ratio 3/6 = 0.5) creates a new
thread, while component {3,4,5,6} against it (ratio 3/4) extends it, the
member set becoming {1,2,3,4,5,6}. -/
theorem thread_overlap_rule :
    (∀ (cluster : List Nat) (ms : List (Nat × List Nat)) (tid ov : Nat),
      Sieve.Threads.selectBestThread cluster ms = (some tid, ov) →
      (∃ m, (tid, m) ∈ ms ∧
        (Sieve.Threads.interL cluster m).length = ov ∧
        2 * ov > cluster.length) ∧
      (∀ p ∈ ms,
        2 * (Sieve.Threads.interL cluster p.2).length > cluster.length →
        (Sieve.Threads.interL cluster p.2).length ≤ ov)) ∧
    Sieve.Threads.selectBestThread [3, 4, 5, 6, 7, 8] [(1, [1, 2, 3, 4, 5])] =
      (none, 0) ∧
    Sieve.Threads.processCluster [(1, [1, 2, 3, 4, 5])] [3, 4, 5, 6, 7, 8]
      Sieve.Threads.exStore ⟨0, 0, 0⟩ =
      ({ memberships := [(1, [1, 2, 3, 4, 5]), (2, [3, 4, 5, 6, 7, 8])],
         next_id := 3 }, ⟨1, 0, 6⟩) ∧
    Sieve.Threads.selectBestThread [3, 4, 5, 6] [(1, [1, 2, 3, 4, 5])] =
      (some 1, 3) ∧
    Sieve.Threads.processCluster [(1, [1, 2, 3, 4, 5])] [3, 4, 5, 6]
      Sieve.Threads.exStore ⟨0, 0, 0⟩ =
      ({ memberships := [(1, [1, 2, 3, 4, 5, 6])], next_id := 2 },
       ⟨0, 1, 4⟩) := by
  refine ⟨?_, by decide, by decide, by decide, by decide⟩
  intro cluster ms tid ov hsel
  have hmax := selectGo_max cluster ms none 0
  have hspec := selectGo_spec cluster ms none 0
  rw [Sieve.Threads.selectBestThread] at hsel
  rcases hspec with heq | hex
  · rw [heq] at hsel
    exact absurd hsel (by simp)
  · obtain ⟨tid', m, hm, h1, h2, h3⟩ := hex
    rw [hsel] at h1 h2 h3
    simp only [Option.some.injEq] at h1
    subst h1
    refine ⟨⟨m, hm, h2, h3⟩, ?_⟩
    intro p hp hqual
    have := hmax.2 p hp hqual
    rwa [hsel] at this

/-- Witness for C6: the selection rule applied to component {3,4,5,6}
against the thread {1,2,3,4,5}. -/
theorem thread_overlap_rule_witness :
    (∃ m, ((1 : Nat), m) ∈ [((1 : Nat), [1, 2, 3, 4, 5])] ∧
      (Sieve.Threads.interL [3, 4, 5, 6] m).length = 3 ∧
      2 * 3 > ([3, 4, 5, 6] : List Nat).length) ∧
    (∀ p ∈ [((1 : Nat), [1, 2, 3, 4, 5])],
      2 * (Sieve.Threads.interL [3, 4, 5, 6] p.2).length >
        ([3, 4, 5, 6] : List Nat).length →
      (Sieve.Threads.interL [3, 4, 5, 6] p.2).length ≤ 3) :=
  thread_overlap_rule.1 [3, 4, 5, 6] [(1, [1, 2, 3, 4, 5])] 1 3 (by decide)

/-- Counterexample for C9: a manual trigger that passes both its checks
while nothing runs, followed by a scheduled trigger firing while the manual
run is active, lets BOTH proceed — the manual run sets only
`job_state["running"]`, never the scheduler's `_pipeline_running`, so the
scheduled check-and-set still finds its flag clear. -/
theorem guard_counterexample :
    Sieve.Guard.trigger_pipeline_check
      { pipeline_running := false, job_running := false } = true ∧
    (Sieve.Guard.tryStartScheduled
      (Sieve.Guard.run_pipeline_job_start
        { pipeline_running := false, job_running := false })).1 = true := by
  exact ⟨rfl, rfl⟩

/-- C9 amended: two serialized `TryStart` check-and-sets on the scheduler
guard from an idle state yield exactly one `true` (the first) and one
`false` (the second); the wrapped job clears the flag unconditionally, even
when it raises, so a subsequent `TryStart` succeeds; a manual trigger while
a scheduled run is active is rejected; but a scheduled trigger during an
active manual run still proceeds, because the manual path never sets the
scheduler's flag. -/
theorem guard_amended :
    (∀ s : Sieve.Guard.SchedState, s.pipeline_running = false →
      (Sieve.Guard.tryStartScheduled s).1 = true ∧
      (Sieve.Guard.tryStartScheduled (Sieve.Guard.tryStartScheduled s).2).1 =
        false) ∧
    (∀ (s : Sieve.Guard.SchedState) (job : Except String Unit),
      s.pipeline_running = false →
      (Sieve.Guard.run_scheduled_pipeline s job).1 = true ∧
      ((Sieve.Guard.run_scheduled_pipeline s job).2).pipeline_running = false ∧
      (Sieve.Guard.tryStartScheduled
        ((Sieve.Guard.run_scheduled_pipeline s job).2)).1 = true) ∧
    (∀ (s : Sieve.Guard.SchedState) (job : Except String Unit),
      s.pipeline_running = true →
      (Sieve.Guard.run_scheduled_pipeline s job).1 = false ∧
      (Sieve.Guard.run_scheduled_pipeline s job).2 = s) ∧
    (∀ s : Sieve.Guard.SchedState, s.pipeline_running = true →
      Sieve.Guard.trigger_pipeline_check s = false) ∧
    (∀ s : Sieve.Guard.SchedState, s.pipeline_running = false →
      (Sieve.Guard.tryStartScheduled (Sieve.Guard.run_pipeline_job_start s)).1 =
        true) := by
  refine ⟨?_, ?_, ?_, ?_, ?_⟩
  · intro s hs
    simp [Sieve.Guard.tryStartScheduled, hs]
  · intro s job hs
    cases job <;>
      simp [Sieve.Guard.run_scheduled_pipeline, Sieve.Guard.tryStartScheduled,
        Sieve.Guard.finishScheduled, hs]
  · intro s job hs
    cases job <;>
      simp [Sieve.Guard.run_scheduled_pipeline, Sieve.Guard.tryStartScheduled, hs]
  · intro s hs
    simp [Sieve.Guard.trigger_pipeline_check, Sieve.Guard.is_pipeline_running, hs]
  · intro s hs
    simp [Sieve.Guard.tryStartScheduled, Sieve.Guard.run_pipeline_job_start, hs]

/-- Witness for C9's amended claim: the guard from the idle state, with a
raising job. -/
theorem guard_amended_witness :
    (Sieve.Guard.tryStartScheduled
      { pipeline_running := false, job_running := false }).1 = true ∧
    ((Sieve.Guard.run_scheduled_pipeline
      { pipeline_running := false, job_running := false }
      (Except.error "boom")).2).pipeline_running = false := by
  have h1 := guard_amended.1 { pipeline_running := false, job_running := false }
    rfl
  have h2 := guard_amended.2.1 { pipeline_running := false, job_running := false }
    (Except.error "boom") rfl
  exact ⟨h1.1, h2.2.1⟩
